import Mathlib

/-!
# Verification development for the Go integration-test client (`src/main.go`)

The program is a linear script: three HTTP calls separated by one-second
pauses, each printing to standard output and logging errors.  It is embedded
as pure functions that return the ordered trace of observable events
(`Event`).  The outside world is explicit input:

* `Transport` answers each request with a transport error or a `Response`;
* a `BodyStream` is the text a response body delivers followed by how the
  stream ends (clean end of file, or a read error).

Go `string`/`[]byte` values are modelled by Lean `String`s (valid UTF-8 text);
sizes that Go measures in bytes are measured with `Char.utf8Size`.
Go `error` values are modelled by their message text (what `%v` prints).
-/

namespace ProjectWrapper

/-! ## Data model (`src/main.go` lines 14-29) -/

/-- The constant `baseURL`. -/
def baseURL : String := "http://localhost:3000"

/-- The struct `Message`: fields `Role` (tag `json:"role"`) and `Content`
(tag `json:"content"`). -/
structure Message where
  Role : String
  Content : String
  deriving DecidableEq, Repr

/-- The struct `ChatRequest`: `Model` (tag `json:"model"`), `Messages`
(tag `json:"messages"`) and `Stream` (tag `json:"stream,omitempty"`).
A Go slice is either `nil` or a sequence, so `Messages` is an `Option`:
`none` is the nil slice, which is also the value of an omitted field. -/
structure ChatRequest where
  Model : String
  Messages : Option (List Message) := none
  Stream : Bool := false
  deriving DecidableEq, Repr

/-! ## `encoding/json`: the part of `json.Marshal` the two structs exercise -/

/-- JSON values as `json.Marshal` produces them for these structs. Object
members keep their order. -/
inductive Json where
  | null : Json
  | bool (b : Bool) : Json
  | str (s : String) : Json
  | arr (items : List Json) : Json
  | obj (members : List (String × Json)) : Json
  deriving Repr

/-- Encoding of a `Message`: both fields, in declaration order, under the
names of their tags. -/
def Message.toJson (m : Message) : Json :=
  .obj [("role", .str m.Role), ("content", .str m.Content)]

/-- Encoding of a `ChatRequest`: fields in declaration order under the names of
their tags; a nil slice encodes as `null`; the `omitempty` field `Stream` is
left out when it holds the empty value `false`. -/
def ChatRequest.toJson (r : ChatRequest) : Json :=
  .obj ([("model", .str r.Model),
         ("messages", match r.Messages with
                      | none => .null
                      | some ms => .arr (ms.map Message.toJson))]
        ++ (if r.Stream then [("stream", .bool true)] else []))

/-- The keys of a JSON object, in order (no keys for a value that is not an
object). -/
def Json.keys : Json → List String
  | .obj members => members.map Prod.fst
  | _ => []

/-- Member lookup in a JSON object. -/
def Json.get? : Json → String → Option Json
  | .obj members, k => (members.find? (fun kv => kv.1 == k)).map Prod.snd
  | _, _ => none

/-- Lower-case hexadecimal digit. -/
def hexDigit (n : Nat) : Char :=
  if n < 10 then Char.ofNat (48 + n) else Char.ofNat (87 + n)

/-- The escape `\u00XX` the encoder writes for an ASCII character it does not
copy. -/
def escapeU00 (c : Char) : List Char :=
  ['\\', 'u', '0', '0', hexDigit (c.toNat / 16), hexDigit (c.toNat % 16)]

/-- String escaping of `json.Marshal` (HTML escaping on), as current Go releases
do it: quote and backslash get a backslash; backspace, form feed, newline,
carriage return and tab get their short escapes (releases before Go 1.22 wrote
backspace and form feed as `\u0008` and `\u000c`); other control characters
and `<`, `>`, `&` are written `\u00XX`; U+2028 and U+2029 are written as their
`\u` escapes; everything else is copied. The two payloads of the program hold
none of these characters. -/
def escapeChar (c : Char) : List Char :=
  if c = '"' then ['\\', '"']
  else if c = '\\' then ['\\', '\\']
  else if c.toNat = 8 then ['\\', 'b']
  else if c.toNat = 12 then ['\\', 'f']
  else if c = '\n' then ['\\', 'n']
  else if c = '\r' then ['\\', 'r']
  else if c = '\t' then ['\\', 't']
  else if c.toNat < 32 ∨ c = '<' ∨ c = '>' ∨ c = '&' then escapeU00 c
  else if c.toNat = 0x2028 then ['\\', 'u', '2', '0', '2', '8']
  else if c.toNat = 0x2029 then ['\\', 'u', '2', '0', '2', '9']
  else [c]

/-- A JSON string literal. -/
def renderString (s : String) : List Char :=
  ['"'] ++ s.data.flatMap escapeChar ++ ['"']

/-- Joins rendered items with commas. -/
def commaSep : List (List Char) → List Char
  | [] => []
  | [x] => x
  | x :: xs => x ++ [','] ++ commaSep xs

mutual
/-- Compact rendering of a JSON value, as `json.Marshal` writes it. -/
def Json.render : Json → List Char
  | .null => "null".data
  | .bool true => "true".data
  | .bool false => "false".data
  | .str s => renderString s
  | .arr items => ['['] ++ commaSep (Json.renderItems items) ++ [']']
  | .obj members => ['{'] ++ commaSep (Json.renderMembers members) ++ ['}']
/-- Renders the items of an array. -/
def Json.renderItems : List Json → List (List Char)
  | [] => []
  | j :: js => Json.render j :: Json.renderItems js
/-- Renders the members of an object as `"key":value`. -/
def Json.renderMembers : List (String × Json) → List (List Char)
  | [] => []
  | (k, v) :: kvs => (renderString k ++ [':'] ++ Json.render v) :: Json.renderMembers kvs
end

/-- The call `json.Marshal(reqPayload)` for a `ChatRequest`: the encoding never
fails for this type, so the result is always `.ok`. -/
def jsonMarshal (r : ChatRequest) : Except String String :=
  .ok (String.mk (ChatRequest.toJson r).render)

/-! ## The outside world: requests, responses, body streams -/

/-- The two request methods the client uses. -/
inductive Method where
  | GET
  | POST
  deriving DecidableEq, Repr

/-- A request as handed to `http.Get` / `http.Post`: method, URL, content type
and body (`http.Get` sends neither content type nor body). -/
structure Request where
  method : Method
  url : String
  contentType : String
  body : String
  deriving DecidableEq, Repr

/-- A response body as a reader sees it: the text it delivers, then how it
ends; `err = none` is a clean end of file, `err = some e` a read error `e`
raised after `data` was delivered. -/
structure BodyStream where
  data : String
  err : Option String := none
  deriving DecidableEq, Repr

/-- The fields of `http.Response` the client uses: `Status` (such as
`200 OK`) and `Body`. -/
structure Response where
  Status : String
  Body : BodyStream
  deriving DecidableEq, Repr

/-- The network and server: every request either fails with an error or is
answered with a response. -/
abbrev Transport := Request → Except String Response

/-- What the program does that can be observed, in order. `stdout` is the text
one print call writes to standard output; `log` is the message of one log
entry (without the logger's time stamp and final newline); `request` is a
request handed to the HTTP client; `bodyOpen`/`bodyClose` mark a response body
being acquired and closed (named by the request URL); `sleep` is a pause of
the given number of nanoseconds. -/
inductive Event where
  | stdout (text : String)
  | log (msg : String)
  | request (r : Request)
  | bodyOpen (url : String)
  | bodyClose (url : String)
  | sleep (ns : Nat)
  deriving DecidableEq, Repr

/-! ## Library calls -/

/-- Models `fmt.Println(s)`: writes `s` and a newline. -/
def fmtPrintln (s : String) : Event := .stdout (s ++ "\n")

/-- Models `log.Println(s)`: one log entry. -/
def logPrintln (s : String) : Event := .log s

/-- Models `log.Printf(format, err)` for a format that ends in `%v`: the text
before `%v` followed by the error message. -/
def logPrintf (fmtPrefix : String) (err : String) : Event := .log (fmtPrefix ++ err)

/-- Models `time.Second`, in nanoseconds. -/
def second : Nat := 1000000000

/-- Models `http.Get(url)`: hands the request to the transport; on success the
response comes with an open body. Returns the events and the result. -/
def httpGet (net : Transport) (url : String) : List Event × Except String Response :=
  let req : Request := { method := .GET, url := url, contentType := "", body := "" }
  match net req with
  | .error e => ([.request req], .error e)
  | .ok resp => ([.request req, .bodyOpen url], .ok resp)

/-- Models `http.Post(url, contentType, bytes.NewBuffer(body))`. -/
def httpPost (net : Transport) (url contentType body : String) :
    List Event × Except String Response :=
  let req : Request := { method := .POST, url := url, contentType := contentType, body := body }
  match net req with
  | .error e => ([.request req], .error e)
  | .ok resp => ([.request req, .bodyOpen url], .ok resp)

/-- Models `io.ReadAll(resp.Body)`: the data read and the error, if any. -/
def ioReadAll (b : BodyStream) : String × Option String := (b.data, b.err)

/-- Models `bufio.MaxScanTokenSize`. -/
def maxScanTokenSize : Nat := 64 * 1024

/-- Models `bufio.ErrTooLong`. -/
def errTooLong : String := "bufio.Scanner: token too long"

/-- Length in bytes of a piece of text. -/
def byteLen (cs : List Char) : Nat := (cs.map Char.utf8Size).sum

/-- Models `dropCR` of `bufio`: removes one trailing carriage return. -/
def dropCR (cs : List Char) : List Char :=
  if cs.getLast? = some '\r' then cs.dropLast else cs

/-- Models the loop over `scanner.Scan()` / `scanner.Text()` followed by
`scanner.Err()` for a scanner made by `bufio.NewScanner` (split function
`ScanLines`, buffer limit `MaxScanTokenSize`): the tokens in order and the
final error.  `pending` is the text of the current line read so far.

* a newline ends a token: the pending text with one trailing carriage return
  dropped;
* when the pending text fills the buffer with no newline in it the scanner
  stops with `ErrTooLong` (a final unterminated line of exactly
  `maxScanTokenSize` bytes is taken as too long; the real scanner decides that
  one case by whether the end of file arrives in the same read);
* when the stream ends, by end of file or by a read error, pending text that
  is not empty is returned as a last token; the error is the read error (none
  at end of file). -/
def scanLoop (readErr : Option String) (pending : List Char) :
    List Char → List String × Option String
  | [] => (if pending = [] then [] else [String.mk (dropCR pending)], readErr)
  | c :: rest =>
    if c = '\n' then
      (String.mk (dropCR pending) :: (scanLoop readErr [] rest).1, (scanLoop readErr [] rest).2)
    else if maxScanTokenSize ≤ byteLen (pending ++ [c]) then ([], some errTooLong)
    else scanLoop readErr (pending ++ [c]) rest

/-- Models a `bufio.Scanner` run to the end over a body: the tokens `Scan`
yields and what `Err` returns afterwards. -/
def bufioScan (b : BodyStream) : List String × Option String :=
  scanLoop b.err [] b.data.data

/-! ## The client (`src/main.go` lines 33-141) -/

/-- Embeds `testHealthCheck` (lines 34-52). -/
def testHealthCheck (net : Transport) : List Event :=
  [fmtPrintln "\n=== Menguji Health Check ==="] ++
  (httpGet net (baseURL ++ "/health")).1 ++
  match (httpGet net (baseURL ++ "/health")).2 with
  | .error err => [logPrintf "Error: Gagal membuat permintaan: " err]
  | .ok resp =>
    -- defer resp.Body.Close()
    (match ioReadAll resp.Body with
     | (_, some err) => [logPrintf "Error: Gagal membaca respons: " err]
     | (body, none) =>
       [.stdout ("Status: " ++ resp.Status ++ "\n"),
        .stdout ("Respons: " ++ body ++ "\n")])
    ++ [.bodyClose (baseURL ++ "/health")]

/-- The value `reqPayload` of `testChatCompletion` (lines 58-63). -/
def chatPayload : ChatRequest :=
  { Model := "gpt-4o-mini",
    Messages := some [{ Role := "user", Content := "Model apa yang kamu gunakan?" }] }

/-- Embeds `testChatCompletion` (lines 55-86) with `json.Marshal` as a
parameter, so that the error branch of line 66 is part of the model. -/
def testChatCompletionWith (marshal : ChatRequest → Except String String)
    (net : Transport) : List Event :=
  [fmtPrintln "\n=== Menguji Chat Completion (Non-Streaming) ==="] ++
  match marshal chatPayload with
  | .error err => [logPrintf "Error: Gagal encode JSON: " err]
  | .ok jsonData =>
    (httpPost net (baseURL ++ "/chat-completion") "application/json" jsonData).1 ++
    match (httpPost net (baseURL ++ "/chat-completion") "application/json" jsonData).2 with
    | .error err => [logPrintf "Error: Gagal mengirim permintaan POST: " err]
    | .ok resp =>
      -- defer resp.Body.Close()
      (match ioReadAll resp.Body with
       | (_, some err) => [logPrintf "Error: Gagal membaca respons: " err]
       | (body, none) =>
         [.stdout ("Status: " ++ resp.Status ++ "\n"),
          .stdout ("Respons: " ++ body ++ "\n")])
      ++ [.bodyClose (baseURL ++ "/chat-completion")]

/-- The function `testChatCompletion` as the program runs it. -/
def testChatCompletion (net : Transport) : List Event :=
  testChatCompletionWith jsonMarshal net

/-- The value `reqPayload` of `testGeminiStream` (lines 92-97). -/
def geminiPayload : ChatRequest :=
  { Model := "gemini-1.5-flash",
    Messages := some [{ Role := "user",
                        Content := "Ceritakan sebuah lelucon singkat tentang pemrograman." }] }

/-- Embeds `testGeminiStream` (lines 89-126) with `json.Marshal` as a
parameter, so that the error branch of line 100 is part of the model. -/
def testGeminiStreamWith (marshal : ChatRequest → Except String String)
    (net : Transport) : List Event :=
  [fmtPrintln "\n=== Menguji Gemini Stream Endpoint (Raw) ==="] ++
  match marshal geminiPayload with
  | .error err => [logPrintf "Error: Gagal encode JSON: " err]
  | .ok jsonData =>
    (httpPost net (baseURL ++ "/gemini-stream") "application/json" jsonData).1 ++
    match (httpPost net (baseURL ++ "/gemini-stream") "application/json" jsonData).2 with
    | .error err => [logPrintf "Error: Gagal mengirim permintaan POST: " err]
    | .ok resp =>
      -- defer resp.Body.Close()
      ([.stdout ("Status: " ++ resp.Status ++ "\n"),
        fmtPrintln "Respons Streaming (Raw): "] ++
       (bufioScan resp.Body).1.map fmtPrintln ++
       (match (bufioScan resp.Body).2 with
        | some err => [logPrintf "\nError: Gagal membaca stream: " err]
        | none => []) ++
       [fmtPrintln "--- Stream Selesai ---"])
      ++ [.bodyClose (baseURL ++ "/gemini-stream")]

/-- The function `testGeminiStream` as the program runs it. -/
def testGeminiStream (net : Transport) : List Event :=
  testGeminiStreamWith jsonMarshal net

/-- Embeds `main` (lines 128-141). -/
def main (net : Transport) : List Event :=
  [logPrintln "Menjalankan pengujian klien Go..."] ++
  testHealthCheck net ++
  [.sleep (1 * second)] ++
  testChatCompletion net ++
  [.sleep (1 * second)] ++
  testGeminiStream net ++
  [logPrintln "\nPengujian selesai."]

/-! ## Projections of a trace -/

/-- The texts written to standard output, in order. -/
def stdoutOf : List Event → List String
  | [] => []
  | .stdout t :: es => t :: stdoutOf es
  | _ :: es => stdoutOf es

/-- The log messages, in order. -/
def logsOf : List Event → List String
  | [] => []
  | .log m :: es => m :: logsOf es
  | _ :: es => logsOf es

/-- The requests issued, in order. -/
def requestsOf : List Event → List Request
  | [] => []
  | .request r :: es => r :: requestsOf es
  | _ :: es => requestsOf es

/-- The pauses, in order. -/
def sleepsOf : List Event → List Nat
  | [] => []
  | .sleep n :: es => n :: sleepsOf es
  | _ :: es => sleepsOf es

/-- The request of `testHealthCheck` (line 37). -/
def healthRequest : Request :=
  { method := .GET, url := baseURL ++ "/health", contentType := "", body := "" }

/-- The request of `testChatCompletion` (line 71) for serialized payload
`jsonData`. -/
def chatRequest (jsonData : String) : Request :=
  { method := .POST, url := baseURL ++ "/chat-completion",
    contentType := "application/json", body := jsonData }

/-- The request of `testGeminiStream` (line 105) for serialized payload
`jsonData`. -/
def geminiRequest (jsonData : String) : Request :=
  { method := .POST, url := baseURL ++ "/gemini-stream",
    contentType := "application/json", body := jsonData }

/-- The serialized payload of `testChatCompletion`. -/
def chatJson : String := String.mk (ChatRequest.toJson chatPayload).render

/-- The serialized payload of `testGeminiStream`. -/
def geminiJson : String := String.mk (ChatRequest.toJson geminiPayload).render

/-- What `testGeminiStreamWith` does with the body of a response. -/
def streamEvents (b : BodyStream) : List Event :=
  (bufioScan b).1.map fmtPrintln ++
  (match (bufioScan b).2 with
   | some err => [logPrintf "\nError: Gagal membaca stream: " err]
   | none => [])

/-- Spec side: the newline-delimited chunks of a text, in order: the pieces
that end at a newline (the newline left out) and, when text remains after the
last newline, that text. `cur` is the piece being collected. -/
def newlineChunksFrom (cur : List Char) : List Char → List (List Char)
  | [] => if cur = [] then [] else [cur]
  | c :: rest =>
    if c = '\n' then cur :: newlineChunksFrom [] rest
    else newlineChunksFrom (cur ++ [c]) rest

/-- Spec side: the newline-delimited chunks of a body. -/
def newlineChunks (body : String) : List (List Char) :=
  newlineChunksFrom [] body.data

mutual
/-- The shape of a JSON value: the value with every string replaced by the
empty string (keys, nesting, array lengths and booleans are kept). -/
def Json.shape : Json → Json
  | .null => .null
  | .bool b => .bool b
  | .str _ => .str ""
  | .arr items => .arr (Json.shapeItems items)
  | .obj members => .obj (Json.shapeMembers members)
/-- Shapes of the items of an array. -/
def Json.shapeItems : List Json → List Json
  | [] => []
  | j :: js => Json.shape j :: Json.shapeItems js
/-- Shapes of the members of an object. -/
def Json.shapeMembers : List (String × Json) → List (String × Json)
  | [] => []
  | (k, v) :: kvs => (k, Json.shape v) :: Json.shapeMembers kvs
end

/-- The bodies acquired, in order. -/
def opensOf : List Event → List String
  | [] => []
  | .bodyOpen u :: es => u :: opensOf es
  | _ :: es => opensOf es

/-- The bodies closed, in order. -/
def closesOf : List Event → List String
  | [] => []
  | .bodyClose u :: es => u :: closesOf es
  | _ :: es => closesOf es

/-- Runs a trace against the set `held` of open bodies: acquiring a body adds
it, closing an open body removes it; closing a body that is not open, or
acquiring one that is, has no result. The result is the set of bodies still
open at the end. -/
def trackBodies (held : List String) : List Event → Option (List String)
  | [] => some held
  | .bodyOpen u :: es => if u ∈ held then none else trackBodies (u :: held) es
  | .bodyClose u :: es => if u ∈ held then trackBodies (held.erase u) es else none
  | .stdout _ :: es => trackBodies held es
  | .log _ :: es => trackBodies held es
  | .request _ :: es => trackBodies held es
  | .sleep _ :: es => trackBodies held es

/-- The events that follow the first log entry of a trace (none when nothing
is logged). -/
def afterFirstLog : List Event → List Event
  | [] => []
  | .log _ :: es => es
  | _ :: es => afterFirstLog es

/-- Spec side: the standard output the streaming call would produce if it
printed every newline-delimited chunk of the body unmodified between the
streaming header and the completion marker. -/
def chunksVerbatimStdout (status body : String) : List String :=
  ["\n=== Menguji Gemini Stream Endpoint (Raw) ===\n",
   "Status: " ++ status ++ "\n",
   "Respons Streaming (Raw): \n"]
  ++ (newlineChunks body).map (fun t => String.mk t ++ "\n")
  ++ ["--- Stream Selesai ---\n"]

/-- A body that holds one line of `maxScanTokenSize` bytes, ended by a
newline. -/
def longLineBody : String := String.mk (List.replicate 65536 'x' ++ ['\n'])

/-! ## Reading the keys back from JSON text -/

mutual
/-- Reads JSON text outside a string literal and returns the keys of the
outermost object, as written between their quotes. `depth` counts the open
braces and brackets; `last` is the string literal that was just closed directly
inside the outermost object. A string literal directly inside the outermost
object that is followed by a colon is a key. -/
def scanKeys (depth : Nat) (last : Option (List Char)) : List Char → List String
  | [] => []
  | c :: cs =>
    if c = '"' then scanString depth false [] cs
    else if c = ':' then
      match last with
      | some k => String.mk k :: scanKeys depth none cs
      | none => scanKeys depth none cs
    else if c = '{' ∨ c = '[' then scanKeys (depth + 1) none cs
    else if c = '}' ∨ c = ']' then scanKeys (depth - 1) none cs
    else scanKeys depth none cs
/-- Reads JSON text inside a string literal: a backslash escapes the character
after it, an unescaped quote ends the literal. `cur` is the text of the literal
read so far. -/
def scanString (depth : Nat) (escaped : Bool) (cur : List Char) : List Char → List String
  | [] => []
  | c :: cs =>
    if escaped then scanString depth false (cur ++ [c]) cs
    else if c = '\\' then scanString depth true (cur ++ [c]) cs
    else if c = '"' then scanKeys depth (if depth = 1 then some cur else none) cs
    else scanString depth false (cur ++ [c]) cs
end

/-- The keys of the JSON object a text holds, read from the text itself. -/
def jsonObjectKeys (text : String) : List String :=
  scanKeys 0 none text.data

/-! ## Basic facts about traces -/

@[simp] theorem stdoutOf_append (a b : List Event) :
    stdoutOf (a ++ b) = stdoutOf a ++ stdoutOf b := by
  induction a with
  | nil => rfl
  | cons e es ih => cases e <;> simp [stdoutOf, ih]

@[simp] theorem logsOf_append (a b : List Event) :
    logsOf (a ++ b) = logsOf a ++ logsOf b := by
  induction a with
  | nil => rfl
  | cons e es ih => cases e <;> simp [logsOf, ih]

@[simp] theorem requestsOf_append (a b : List Event) :
    requestsOf (a ++ b) = requestsOf a ++ requestsOf b := by
  induction a with
  | nil => rfl
  | cons e es ih => cases e <;> simp [requestsOf, ih]

@[simp] theorem sleepsOf_append (a b : List Event) :
    sleepsOf (a ++ b) = sleepsOf a ++ sleepsOf b := by
  induction a with
  | nil => rfl
  | cons e es ih => cases e <;> simp [sleepsOf, ih]

theorem jsonMarshal_chat : jsonMarshal chatPayload = .ok chatJson := rfl

theorem jsonMarshal_gemini : jsonMarshal geminiPayload = .ok geminiJson := rfl

/-- The three steps of `testHealthCheck`, by outcome. -/
theorem testHealthCheck_cases (net : Transport) :
    (∀ e, net healthRequest = .error e →
      testHealthCheck net =
        [.stdout "\n=== Menguji Health Check ===\n", .request healthRequest,
         .log ("Error: Gagal membuat permintaan: " ++ e)])
    ∧ (∀ s d e, net healthRequest = .ok ⟨s, ⟨d, some e⟩⟩ →
      testHealthCheck net =
        [.stdout "\n=== Menguji Health Check ===\n", .request healthRequest,
         .bodyOpen healthRequest.url,
         .log ("Error: Gagal membaca respons: " ++ e),
         .bodyClose healthRequest.url])
    ∧ (∀ s d, net healthRequest = .ok ⟨s, ⟨d, none⟩⟩ →
      testHealthCheck net =
        [.stdout "\n=== Menguji Health Check ===\n", .request healthRequest,
         .bodyOpen healthRequest.url,
         .stdout ("Status: " ++ s ++ "\n"), .stdout ("Respons: " ++ d ++ "\n"),
         .bodyClose healthRequest.url]) := by
  refine ⟨?_, ?_, ?_⟩
  · intro e h
    unfold healthRequest at h
    simp only [testHealthCheck, httpGet, h, healthRequest, fmtPrintln, logPrintf]
    rfl
  · intro s d e h
    unfold healthRequest at h
    simp only [testHealthCheck, httpGet, h, healthRequest, fmtPrintln, logPrintf, ioReadAll]
    rfl
  · intro s d h
    unfold healthRequest at h
    simp only [testHealthCheck, httpGet, h, healthRequest, fmtPrintln, logPrintf, ioReadAll]
    rfl

/-- The steps of `testChatCompletionWith`, by outcome. -/
theorem testChatCompletionWith_cases (marshal : ChatRequest → Except String String)
    (net : Transport) :
    (∀ e, marshal chatPayload = .error e →
      testChatCompletionWith marshal net =
        [.stdout "\n=== Menguji Chat Completion (Non-Streaming) ===\n",
         .log ("Error: Gagal encode JSON: " ++ e)])
    ∧ (∀ j e, marshal chatPayload = .ok j → net (chatRequest j) = .error e →
      testChatCompletionWith marshal net =
        [.stdout "\n=== Menguji Chat Completion (Non-Streaming) ===\n",
         .request (chatRequest j),
         .log ("Error: Gagal mengirim permintaan POST: " ++ e)])
    ∧ (∀ j s d e, marshal chatPayload = .ok j → net (chatRequest j) = .ok ⟨s, ⟨d, some e⟩⟩ →
      testChatCompletionWith marshal net =
        [.stdout "\n=== Menguji Chat Completion (Non-Streaming) ===\n",
         .request (chatRequest j), .bodyOpen (chatRequest j).url,
         .log ("Error: Gagal membaca respons: " ++ e),
         .bodyClose (chatRequest j).url])
    ∧ (∀ j s d, marshal chatPayload = .ok j → net (chatRequest j) = .ok ⟨s, ⟨d, none⟩⟩ →
      testChatCompletionWith marshal net =
        [.stdout "\n=== Menguji Chat Completion (Non-Streaming) ===\n",
         .request (chatRequest j), .bodyOpen (chatRequest j).url,
         .stdout ("Status: " ++ s ++ "\n"), .stdout ("Respons: " ++ d ++ "\n"),
         .bodyClose (chatRequest j).url]) := by
  refine ⟨?_, ?_, ?_, ?_⟩
  · intro e hm
    simp only [testChatCompletionWith, hm, fmtPrintln, logPrintf]
    rfl
  · intro j e hm h
    unfold chatRequest at h
    simp only [testChatCompletionWith, hm, httpPost, h, chatRequest, fmtPrintln, logPrintf]
    rfl
  · intro j s d e hm h
    unfold chatRequest at h
    simp only [testChatCompletionWith, hm, httpPost, h, chatRequest, fmtPrintln, logPrintf,
      ioReadAll]
    rfl
  · intro j s d hm h
    unfold chatRequest at h
    simp only [testChatCompletionWith, hm, httpPost, h, chatRequest, fmtPrintln, logPrintf,
      ioReadAll]
    rfl

/-- The steps of `testGeminiStreamWith`, by outcome. -/
theorem testGeminiStreamWith_cases (marshal : ChatRequest → Except String String)
    (net : Transport) :
    (∀ e, marshal geminiPayload = .error e →
      testGeminiStreamWith marshal net =
        [.stdout "\n=== Menguji Gemini Stream Endpoint (Raw) ===\n",
         .log ("Error: Gagal encode JSON: " ++ e)])
    ∧ (∀ j e, marshal geminiPayload = .ok j → net (geminiRequest j) = .error e →
      testGeminiStreamWith marshal net =
        [.stdout "\n=== Menguji Gemini Stream Endpoint (Raw) ===\n",
         .request (geminiRequest j),
         .log ("Error: Gagal mengirim permintaan POST: " ++ e)])
    ∧ (∀ j s b, marshal geminiPayload = .ok j → net (geminiRequest j) = .ok ⟨s, b⟩ →
      testGeminiStreamWith marshal net =
        [.stdout "\n=== Menguji Gemini Stream Endpoint (Raw) ===\n",
         .request (geminiRequest j), .bodyOpen (geminiRequest j).url,
         .stdout ("Status: " ++ s ++ "\n"), .stdout "Respons Streaming (Raw): \n"]
        ++ streamEvents b
        ++ [.stdout "--- Stream Selesai ---\n", .bodyClose (geminiRequest j).url]) := by
  refine ⟨?_, ?_, ?_⟩
  · intro e hm
    simp only [testGeminiStreamWith, hm, fmtPrintln, logPrintf]
    rfl
  · intro j e hm h
    unfold geminiRequest at h
    simp only [testGeminiStreamWith, hm, httpPost, h, geminiRequest, fmtPrintln, logPrintf]
    rfl
  · intro j s b hm h
    unfold geminiRequest at h
    simp only [testGeminiStreamWith, hm, httpPost, h, geminiRequest, streamEvents]
    simp [fmtPrintln]

/-! ## Facts about the line scanner -/

theorem byteLen_append (a b : List Char) : byteLen (a ++ b) = byteLen a + byteLen b := by
  simp [byteLen]

theorem byteLen_replicate_x (n : Nat) : byteLen (List.replicate n 'x') = n := by
  have h : Char.utf8Size 'x' = 1 := by decide
  simp [byteLen, List.map_replicate, List.sum_replicate, h]

/-- A line that does not fit the buffer stops the scanner with `ErrTooLong`. -/
theorem scanLoop_tooLong (err : Option String) (l : List Char) :
    ∀ (pending rest : List Char), '\n' ∉ l →
      byteLen pending < maxScanTokenSize →
      maxScanTokenSize ≤ byteLen (pending ++ l) →
      scanLoop err pending (l ++ rest) = ([], some errTooLong) := by
  induction l with
  | nil =>
    intro pending rest _ h1 h2
    simp at h2
    omega
  | cons c l ih =>
    intro pending rest hn h1 h2
    have hc : c ≠ '\n' := fun h => hn (by simp [h])
    have hl : '\n' ∉ l := fun h => hn (List.mem_cons_of_mem _ h)
    by_cases h : maxScanTokenSize ≤ byteLen (pending ++ [c])
    · simp only [List.cons_append, scanLoop, if_neg hc, if_pos h, List.append_eq]
    · simp only [List.cons_append, scanLoop, if_neg hc, if_neg h, List.append_eq]
      exact ih (pending ++ [c]) rest hl (by omega) (by simpa using h2)

/-- The first chunk collected from a non-empty start extends that start. -/
theorem newlineChunksFrom_head (l : List Char) :
    ∀ cur : List Char, cur ≠ [] →
      ∃ t ts, newlineChunksFrom cur l = t :: ts ∧ byteLen cur ≤ byteLen t := by
  induction l with
  | nil =>
    intro cur hcur
    exact ⟨cur, [], by simp [newlineChunksFrom, hcur], le_refl _⟩
  | cons c l ih =>
    intro cur hcur
    by_cases hc : c = '\n'
    · exact ⟨cur, newlineChunksFrom [] l, by simp [newlineChunksFrom, hc], le_refl _⟩
    · obtain ⟨t, ts, h1, h2⟩ := ih (cur ++ [c]) (by simp)
      refine ⟨t, ts, by simp [newlineChunksFrom, hc, h1], ?_⟩
      rw [byteLen_append] at h2
      omega

/-- Refinement: when every chunk fits the buffer, the scanner yields exactly the
newline-delimited chunks, each with one trailing carriage return removed, and
ends with the stream's own error. -/
theorem scanLoop_eq_chunks (err : Option String) (l : List Char) :
    ∀ pending : List Char,
      (∀ t ∈ newlineChunksFrom pending l, byteLen t < maxScanTokenSize) →
      scanLoop err pending l =
        ((newlineChunksFrom pending l).map (fun t => String.mk (dropCR t)), err) := by
  induction l with
  | nil =>
    intro pending _
    by_cases hp : pending = [] <;> simp [scanLoop, newlineChunksFrom, hp]
  | cons c l ih =>
    intro pending hfit
    by_cases hc : c = '\n'
    · have hrest : ∀ t ∈ newlineChunksFrom [] l, byteLen t < maxScanTokenSize := by
        intro t ht
        exact hfit t (by simp [newlineChunksFrom, hc, ht])
      simp [scanLoop, newlineChunksFrom, hc, ih [] hrest]
    · have hrest : ∀ t ∈ newlineChunksFrom (pending ++ [c]) l,
          byteLen t < maxScanTokenSize := by
        intro t ht
        exact hfit t (by simpa [newlineChunksFrom, hc] using ht)
      obtain ⟨t, ts, h1, h2⟩ := newlineChunksFrom_head l (pending ++ [c]) (by simp)
      have ht : byteLen t < maxScanTokenSize := hrest t (by simp [h1])
      have hlt : ¬ maxScanTokenSize ≤ byteLen (pending ++ [c]) := by omega
      simp only [scanLoop, newlineChunksFrom, if_neg hc, if_neg hlt]
      exact ih (pending ++ [c]) hrest

theorem stdoutOf_map_fmtPrintln (ts : List String) :
    stdoutOf (ts.map fmtPrintln) = ts.map (fun t => t ++ "\n") := by
  induction ts with
  | nil => rfl
  | cons t ts ih => simp [fmtPrintln, stdoutOf, ih]

theorem logsOf_map_fmtPrintln (ts : List String) : logsOf (ts.map fmtPrintln) = [] := by
  induction ts with
  | nil => rfl
  | cons t ts ih => simp [fmtPrintln, logsOf, ih]

theorem requestsOf_map_fmtPrintln (ts : List String) :
    requestsOf (ts.map fmtPrintln) = [] := by
  induction ts with
  | nil => rfl
  | cons t ts ih => simp [fmtPrintln, requestsOf, ih]

theorem sleepsOf_map_fmtPrintln (ts : List String) : sleepsOf (ts.map fmtPrintln) = [] := by
  induction ts with
  | nil => rfl
  | cons t ts ih => simp [fmtPrintln, sleepsOf, ih]

theorem stdoutOf_streamEvents (b : BodyStream) :
    stdoutOf (streamEvents b) = (bufioScan b).1.map (fun t => t ++ "\n") := by
  unfold streamEvents
  cases (bufioScan b).2 <;> simp [stdoutOf_map_fmtPrintln, logPrintf, stdoutOf]

theorem logsOf_streamEvents (b : BodyStream) :
    logsOf (streamEvents b) =
      match (bufioScan b).2 with
      | some err => ["\nError: Gagal membaca stream: " ++ err]
      | none => [] := by
  unfold streamEvents
  cases (bufioScan b).2 <;> simp [logsOf_map_fmtPrintln, logPrintf, logsOf]

theorem requestsOf_streamEvents (b : BodyStream) : requestsOf (streamEvents b) = [] := by
  unfold streamEvents
  cases (bufioScan b).2 <;> simp [requestsOf_map_fmtPrintln, logPrintf, requestsOf]

theorem sleepsOf_streamEvents (b : BodyStream) : sleepsOf (streamEvents b) = [] := by
  unfold streamEvents
  cases (bufioScan b).2 <;> simp [sleepsOf_map_fmtPrintln, logPrintf, sleepsOf]

/-! ## The requests each call issues -/

theorem requestsOf_testHealthCheck (net : Transport) :
    requestsOf (testHealthCheck net) = [healthRequest] := by
  obtain ⟨h1, h2, h3⟩ := testHealthCheck_cases net
  cases hr : net healthRequest with
  | error e => rw [h1 e hr]; rfl
  | ok resp =>
    obtain ⟨s, ⟨d, err⟩⟩ := resp
    cases err with
    | none => rw [h3 s d hr]; rfl
    | some e => rw [h2 s d e hr]; rfl

theorem requestsOf_testChatCompletion (net : Transport) :
    requestsOf (testChatCompletion net) = [chatRequest chatJson] := by
  obtain ⟨_, h2, h3, h4⟩ := testChatCompletionWith_cases jsonMarshal net
  unfold testChatCompletion
  cases hr : net (chatRequest chatJson) with
  | error e => rw [h2 chatJson e jsonMarshal_chat hr]; rfl
  | ok resp =>
    obtain ⟨s, ⟨d, err⟩⟩ := resp
    cases err with
    | none => rw [h4 chatJson s d jsonMarshal_chat hr]; rfl
    | some e => rw [h3 chatJson s d e jsonMarshal_chat hr]; rfl

theorem requestsOf_testGeminiStream (net : Transport) :
    requestsOf (testGeminiStream net) = [geminiRequest geminiJson] := by
  obtain ⟨_, h2, h3⟩ := testGeminiStreamWith_cases jsonMarshal net
  unfold testGeminiStream
  cases hr : net (geminiRequest geminiJson) with
  | error e => rw [h2 geminiJson e jsonMarshal_gemini hr]; rfl
  | ok resp =>
    obtain ⟨s, b⟩ := resp
    rw [h3 geminiJson s b jsonMarshal_gemini hr]
    simp [requestsOf, requestsOf_streamEvents]

theorem afterFirstLog_append (a : List Event) (m : String) (rest : List Event)
    (h : logsOf a = []) : afterFirstLog (a ++ .log m :: rest) = rest := by
  induction a with
  | nil => rfl
  | cons e es ih =>
    cases e <;> simp_all [afterFirstLog, logsOf]

theorem afterFirstLog_nil_of_logsOf (a : List Event) (h : logsOf a = []) :
    afterFirstLog a = [] := by
  induction a with
  | nil => rfl
  | cons e es ih =>
    cases e <;> simp_all [afterFirstLog, logsOf]

theorem bufioScan_longLineBody (err : Option String) :
    bufioScan ⟨longLineBody, err⟩ = ([], some errTooLong) := by
  have hmem : '\n' ∉ List.replicate 65536 'x' := by
    intro h
    exact absurd (List.eq_of_mem_replicate h) (by decide)
  have hlen : maxScanTokenSize ≤ byteLen ([] ++ List.replicate 65536 'x') := by
    rw [List.nil_append, byteLen_replicate_x]
    decide
  exact scanLoop_tooLong err (List.replicate 65536 'x') [] ['\n'] hmem (by decide) hlen

theorem newlineChunksFrom_ne_nil (l : List Char) :
    ∀ cur : List Char, l ≠ [] → newlineChunksFrom cur l ≠ [] := by
  induction l with
  | nil => intro _ h; exact absurd rfl h
  | cons c l ih =>
    intro cur _
    by_cases hc : c = '\n'
    · simp [newlineChunksFrom, hc]
    · obtain ⟨t, ts, h1, _⟩ := newlineChunksFrom_head l (cur ++ [c]) (by simp)
      simp [newlineChunksFrom, hc, h1]

theorem chunksVerbatimStdout_length (status body : String)
    (h : newlineChunks body ≠ []) : 5 ≤ (chunksVerbatimStdout status body).length := by
  have hpos : 0 < (newlineChunks body).length := List.length_pos.mpr h
  simp only [chunksVerbatimStdout, List.length_append, List.length_map, List.length_cons,
    List.length_nil]
  omega

/-! ## Facts about open bodies -/

@[simp] theorem opensOf_append (a b : List Event) :
    opensOf (a ++ b) = opensOf a ++ opensOf b := by
  induction a with
  | nil => rfl
  | cons e es ih => cases e <;> simp [opensOf, ih]

@[simp] theorem closesOf_append (a b : List Event) :
    closesOf (a ++ b) = closesOf a ++ closesOf b := by
  induction a with
  | nil => rfl
  | cons e es ih => cases e <;> simp [closesOf, ih]

theorem trackBodies_append (a b : List Event) :
    ∀ held : List String,
      trackBodies held (a ++ b) = (trackBodies held a).bind (fun h => trackBodies h b) := by
  induction a with
  | nil => intro held; rfl
  | cons e es ih =>
    intro held
    cases e with
    | bodyOpen u =>
      by_cases hu : u ∈ held <;> simp [trackBodies, hu, ih]
    | bodyClose u =>
      by_cases hu : u ∈ held <;> simp [trackBodies, hu, ih]
    | stdout t => simp [trackBodies, ih]
    | log m => simp [trackBodies, ih]
    | request r => simp [trackBodies, ih]
    | sleep n => simp [trackBodies, ih]

theorem trackBodies_map_fmtPrintln (ts : List String) (held : List String) :
    trackBodies held (ts.map fmtPrintln) = some held := by
  induction ts with
  | nil => rfl
  | cons t ts ih => simpa [fmtPrintln, trackBodies] using ih

theorem opensOf_map_fmtPrintln (ts : List String) : opensOf (ts.map fmtPrintln) = [] := by
  induction ts with
  | nil => rfl
  | cons t ts ih => simp [fmtPrintln, opensOf, ih]

theorem closesOf_map_fmtPrintln (ts : List String) : closesOf (ts.map fmtPrintln) = [] := by
  induction ts with
  | nil => rfl
  | cons t ts ih => simp [fmtPrintln, closesOf, ih]

theorem opensOf_streamEvents (b : BodyStream) : opensOf (streamEvents b) = [] := by
  unfold streamEvents
  cases (bufioScan b).2 <;> simp [opensOf_map_fmtPrintln, logPrintf, opensOf]

theorem closesOf_streamEvents (b : BodyStream) : closesOf (streamEvents b) = [] := by
  unfold streamEvents
  cases (bufioScan b).2 <;> simp [closesOf_map_fmtPrintln, logPrintf, closesOf]

theorem trackBodies_streamEvents (b : BodyStream) (held : List String) :
    trackBodies held (streamEvents b) = some held := by
  unfold streamEvents
  rw [trackBodies_append, trackBodies_map_fmtPrintln]
  cases (bufioScan b).2 <;> simp [logPrintf, trackBodies]

/-- The bodies of `testHealthCheck`, by outcome of the request. -/
theorem testHealthCheck_bodies (net : Transport) :
    (∀ e, net healthRequest = .error e →
      opensOf (testHealthCheck net) = [] ∧ closesOf (testHealthCheck net) = [])
    ∧ (∀ resp, net healthRequest = .ok resp →
      opensOf (testHealthCheck net) = [healthRequest.url]
      ∧ closesOf (testHealthCheck net) = [healthRequest.url]
      ∧ (testHealthCheck net).getLast? = some (.bodyClose healthRequest.url))
    ∧ trackBodies [] (testHealthCheck net) = some [] := by
  obtain ⟨h1, h2, h3⟩ := testHealthCheck_cases net
  refine ⟨?_, ?_, ?_⟩
  · intro e h; rw [h1 e h]; exact ⟨rfl, rfl⟩
  · intro resp h
    obtain ⟨s, ⟨d, err⟩⟩ := resp
    cases err with
    | none => rw [h3 s d h]; exact ⟨rfl, rfl, rfl⟩
    | some e => rw [h2 s d e h]; exact ⟨rfl, rfl, rfl⟩
  · cases hr : net healthRequest with
    | error e => rw [h1 e hr]; rfl
    | ok resp =>
      obtain ⟨s, ⟨d, err⟩⟩ := resp
      cases err with
      | none => rw [h3 s d hr]; simp [trackBodies]
      | some e => rw [h2 s d e hr]; simp [trackBodies]

/-- The bodies of `testChatCompletionWith`, by outcome. -/
theorem testChatCompletionWith_bodies (marshal : ChatRequest → Except String String)
    (net : Transport) :
    (∀ e, marshal chatPayload = .error e →
      opensOf (testChatCompletionWith marshal net) = []
      ∧ closesOf (testChatCompletionWith marshal net) = [])
    ∧ (∀ j e, marshal chatPayload = .ok j → net (chatRequest j) = .error e →
      opensOf (testChatCompletionWith marshal net) = []
      ∧ closesOf (testChatCompletionWith marshal net) = [])
    ∧ (∀ j resp, marshal chatPayload = .ok j → net (chatRequest j) = .ok resp →
      opensOf (testChatCompletionWith marshal net) = [(chatRequest j).url]
      ∧ closesOf (testChatCompletionWith marshal net) = [(chatRequest j).url]
      ∧ (testChatCompletionWith marshal net).getLast? = some (.bodyClose (chatRequest j).url))
    ∧ trackBodies [] (testChatCompletionWith marshal net) = some [] := by
  obtain ⟨c1, c2, c3, c4⟩ := testChatCompletionWith_cases marshal net
  refine ⟨?_, ?_, ?_, ?_⟩
  · intro e h; rw [c1 e h]; exact ⟨rfl, rfl⟩
  · intro j e hm h; rw [c2 j e hm h]; exact ⟨rfl, rfl⟩
  · intro j resp hm h
    obtain ⟨s, ⟨d, err⟩⟩ := resp
    cases err with
    | none => rw [c4 j s d hm h]; exact ⟨rfl, rfl, rfl⟩
    | some e => rw [c3 j s d e hm h]; exact ⟨rfl, rfl, rfl⟩
  · cases hm : marshal chatPayload with
    | error e => rw [c1 e hm]; rfl
    | ok j =>
      cases hr : net (chatRequest j) with
      | error e => rw [c2 j e hm hr]; rfl
      | ok resp =>
        obtain ⟨s, ⟨d, err⟩⟩ := resp
        cases err with
        | none => rw [c4 j s d hm hr]; simp [trackBodies]
        | some e => rw [c3 j s d e hm hr]; simp [trackBodies]

/-- The bodies of `testGeminiStreamWith`, by outcome. -/
theorem testGeminiStreamWith_bodies (marshal : ChatRequest → Except String String)
    (net : Transport) :
    (∀ e, marshal geminiPayload = .error e →
      opensOf (testGeminiStreamWith marshal net) = []
      ∧ closesOf (testGeminiStreamWith marshal net) = [])
    ∧ (∀ j e, marshal geminiPayload = .ok j → net (geminiRequest j) = .error e →
      opensOf (testGeminiStreamWith marshal net) = []
      ∧ closesOf (testGeminiStreamWith marshal net) = [])
    ∧ (∀ j resp, marshal geminiPayload = .ok j → net (geminiRequest j) = .ok resp →
      opensOf (testGeminiStreamWith marshal net) = [(geminiRequest j).url]
      ∧ closesOf (testGeminiStreamWith marshal net) = [(geminiRequest j).url]
      ∧ (testGeminiStreamWith marshal net).getLast? =
          some (.bodyClose (geminiRequest j).url))
    ∧ trackBodies [] (testGeminiStreamWith marshal net) = some [] := by
  obtain ⟨g1, g2, g3⟩ := testGeminiStreamWith_cases marshal net
  have htrack : ∀ j s b, trackBodies []
      ([Event.stdout "\n=== Menguji Gemini Stream Endpoint (Raw) ===\n",
         .request (geminiRequest j), .bodyOpen (geminiRequest j).url,
         .stdout ("Status: " ++ s ++ "\n"), .stdout "Respons Streaming (Raw): \n"]
        ++ streamEvents b
        ++ [.stdout "--- Stream Selesai ---\n", .bodyClose (geminiRequest j).url]) =
      some [] := by
    intro j s b
    rw [trackBodies_append, trackBodies_append]
    have h0 : trackBodies []
        [Event.stdout "\n=== Menguji Gemini Stream Endpoint (Raw) ===\n",
         .request (geminiRequest j), .bodyOpen (geminiRequest j).url,
         .stdout ("Status: " ++ s ++ "\n"), .stdout "Respons Streaming (Raw): \n"] =
        some [(geminiRequest j).url] := by simp [trackBodies]
    rw [h0]
    simp [trackBodies_streamEvents, trackBodies]
  refine ⟨?_, ?_, ?_, ?_⟩
  · intro e h; rw [g1 e h]; exact ⟨rfl, rfl⟩
  · intro j e hm h; rw [g2 j e hm h]; exact ⟨rfl, rfl⟩
  · intro j resp hm h
    obtain ⟨s, b⟩ := resp
    rw [g3 j s b hm h]
    refine ⟨?_, ?_, ?_⟩
    · simp [opensOf, opensOf_streamEvents]
    · simp [closesOf, closesOf_streamEvents]
    · rw [show [Event.stdout "--- Stream Selesai ---\n", .bodyClose (geminiRequest j).url] =
          [Event.stdout "--- Stream Selesai ---\n"] ++ [.bodyClose (geminiRequest j).url]
          from rfl, ← List.append_assoc]
      exact List.getLast?_concat _
  · cases hm : marshal geminiPayload with
    | error e => rw [g1 e hm]; rfl
    | ok j =>
      cases hr : net (geminiRequest j) with
      | error e => rw [g2 j e hm hr]; rfl
      | ok resp =>
        obtain ⟨s, b⟩ := resp
        rw [g3 j s b hm hr]
        exact htrack j s b

theorem trackBodies_main (net : Transport) : trackBodies [] (main net) = some [] := by
  have h1 := (testHealthCheck_bodies net).2.2
  have h2 := (testChatCompletionWith_bodies jsonMarshal net).2.2.2
  have h3 := (testGeminiStreamWith_bodies jsonMarshal net).2.2.2
  have e1 : trackBodies [] [logPrintln "Menjalankan pengujian klien Go..."] = some [] := rfl
  have e2 : trackBodies [] [Event.sleep (1 * second)] = some [] := rfl
  have e3 : trackBodies [] [logPrintln "\nPengujian selesai."] = some [] := rfl
  unfold main testChatCompletion testGeminiStream
  simp only [trackBodies_append, e1, e2, e3, h1, h2, h3, Option.some_bind]

/-! ## Facts about the keys read from serialized text -/

theorem hexDigit_plain : ∀ n, n < 16 → hexDigit n ≠ '"' ∧ hexDigit n ≠ '\\' := by
  decide

theorem scanString_plain (d : Nat) (cur : List Char) (c : Char) (rest : List Char)
    (h1 : c ≠ '\\') (h2 : c ≠ '"') :
    scanString d false cur (c :: rest) = scanString d false (cur ++ [c]) rest := by
  simp [scanString, h1, h2]

theorem scanString_backslash (d : Nat) (cur : List Char) (c : Char) (rest : List Char) :
    scanString d false cur ('\\' :: c :: rest) = scanString d false (cur ++ ['\\', c]) rest := by
  simp [scanString]

theorem scanString_quote (d : Nat) (cur rest : List Char) :
    scanString d false cur ('"' :: rest) =
      scanKeys d (if d = 1 then some cur else none) rest := by
  simp [scanString]

theorem scanKeys_quote (d : Nat) (last : Option (List Char)) (rest : List Char) :
    scanKeys d last ('"' :: rest) = scanString d false [] rest := by
  simp [scanKeys]

theorem scanKeys_colon_some (d : Nat) (k rest : List Char) :
    scanKeys d (some k) (':' :: rest) = String.mk k :: scanKeys d none rest := by
  simp [scanKeys]

theorem scanKeys_colon_none (d : Nat) (rest : List Char) :
    scanKeys d none (':' :: rest) = scanKeys d none rest := by
  simp [scanKeys]

theorem scanKeys_open_brace (d : Nat) (last : Option (List Char)) (rest : List Char) :
    scanKeys d last ('{' :: rest) = scanKeys (d + 1) none rest := by
  simp [scanKeys]

theorem scanKeys_open_bracket (d : Nat) (last : Option (List Char)) (rest : List Char) :
    scanKeys d last ('[' :: rest) = scanKeys (d + 1) none rest := by
  simp [scanKeys]

theorem scanKeys_close_brace (d : Nat) (last : Option (List Char)) (rest : List Char) :
    scanKeys (d + 1) last ('}' :: rest) = scanKeys d none rest := by
  simp [scanKeys]

theorem scanKeys_close_bracket (d : Nat) (last : Option (List Char)) (rest : List Char) :
    scanKeys (d + 1) last (']' :: rest) = scanKeys d none rest := by
  simp [scanKeys]

theorem scanKeys_comma (d : Nat) (last : Option (List Char)) (rest : List Char) :
    scanKeys d last (',' :: rest) = scanKeys d none rest := by
  simp [scanKeys]

theorem scanKeys_null (d : Nat) (last : Option (List Char)) (rest : List Char) :
    scanKeys d last ('n' :: 'u' :: 'l' :: 'l' :: rest) = scanKeys d none rest := by
  simp [scanKeys]

theorem scanKeys_true (d : Nat) (last : Option (List Char)) (rest : List Char) :
    scanKeys d last ('t' :: 'r' :: 'u' :: 'e' :: rest) = scanKeys d none rest := by
  simp [scanKeys]

/-- The escape of one character is read back as text of the string literal: it
neither ends the literal nor leaves an escape pending. -/
theorem scanString_escapeChar (d : Nat) (cur : List Char) (c : Char) (rest : List Char) :
    scanString d false cur (escapeChar c ++ rest) =
      scanString d false (cur ++ escapeChar c) rest := by
  unfold escapeChar
  by_cases h1 : c = '"'
  · rw [if_pos h1]; exact scanString_backslash d cur _ rest
  rw [if_neg h1]
  by_cases h2 : c = '\\'
  · rw [if_pos h2]; exact scanString_backslash d cur _ rest
  rw [if_neg h2]
  by_cases h3 : c.toNat = 8
  · rw [if_pos h3]; exact scanString_backslash d cur _ rest
  rw [if_neg h3]
  by_cases h4 : c.toNat = 12
  · rw [if_pos h4]; exact scanString_backslash d cur _ rest
  rw [if_neg h4]
  by_cases h5 : c = '\n'
  · rw [if_pos h5]; exact scanString_backslash d cur _ rest
  rw [if_neg h5]
  by_cases h6 : c = '\r'
  · rw [if_pos h6]; exact scanString_backslash d cur _ rest
  rw [if_neg h6]
  by_cases h7 : c = '\t'
  · rw [if_pos h7]; exact scanString_backslash d cur _ rest
  rw [if_neg h7]
  by_cases h8 : c.toNat < 32 ∨ c = '<' ∨ c = '>' ∨ c = '&'
  · rw [if_pos h8]
    have hb : c.toNat / 16 < 16 := by
      rcases h8 with h | h | h | h
      · omega
      · subst h; decide
      · subst h; decide
      · subst h; decide
    have ha := hexDigit_plain (c.toNat / 16) hb
    have hc := hexDigit_plain (c.toNat % 16) (Nat.mod_lt _ (by decide))
    show scanString d false cur
        ('\\' :: 'u' :: '0' :: '0' :: hexDigit (c.toNat / 16) :: hexDigit (c.toNat % 16) :: rest)
      = _
    rw [scanString_backslash, scanString_plain _ _ '0' _ (by decide) (by decide),
      scanString_plain _ _ '0' _ (by decide) (by decide),
      scanString_plain _ _ _ _ ha.2 ha.1, scanString_plain _ _ _ _ hc.2 hc.1]
    simp [escapeU00]
  rw [if_neg h8]
  by_cases h9 : c.toNat = 0x2028
  · rw [if_pos h9]
    show scanString d false cur ('\\' :: 'u' :: '2' :: '0' :: '2' :: '8' :: rest) = _
    rw [scanString_backslash, scanString_plain _ _ '2' _ (by decide) (by decide),
      scanString_plain _ _ '0' _ (by decide) (by decide),
      scanString_plain _ _ '2' _ (by decide) (by decide),
      scanString_plain _ _ '8' _ (by decide) (by decide)]
    simp
  rw [if_neg h9]
  by_cases h10 : c.toNat = 0x2029
  · rw [if_pos h10]
    show scanString d false cur ('\\' :: 'u' :: '2' :: '0' :: '2' :: '9' :: rest) = _
    rw [scanString_backslash, scanString_plain _ _ '2' _ (by decide) (by decide),
      scanString_plain _ _ '0' _ (by decide) (by decide),
      scanString_plain _ _ '2' _ (by decide) (by decide),
      scanString_plain _ _ '9' _ (by decide) (by decide)]
    simp
  rw [if_neg h10]
  exact scanString_plain d cur c rest h2 h1

/-- Escaped text followed by a quote is read back as one whole string
literal. -/
theorem scanString_escaped_text (s : List Char) :
    ∀ (d : Nat) (cur rest : List Char),
      scanString d false cur (s.flatMap escapeChar ++ '"' :: rest) =
        scanKeys d (if d = 1 then some (cur ++ s.flatMap escapeChar) else none) rest := by
  induction s with
  | nil =>
    intro d cur rest
    simp [scanString_quote]
  | cons c s ih =>
    intro d cur rest
    rw [List.flatMap_cons, List.append_assoc, scanString_escapeChar, ih, List.append_assoc]

/-- A rendered string literal is read back as one string literal, whatever
characters the string holds. -/
theorem scanKeys_renderString (s : String) (d : Nat) (last : Option (List Char))
    (rest : List Char) :
    scanKeys d last (renderString s ++ rest) =
      scanKeys d (if d = 1 then some (s.data.flatMap escapeChar) else none) rest := by
  have h := scanString_escaped_text s.data d [] rest
  rw [List.nil_append] at h
  rw [← h]
  show scanKeys d last ('"' :: (s.data.flatMap escapeChar ++ ['"'] ++ rest)) = _
  rw [scanKeys_quote, List.append_assoc]
  rfl

/-- A rendered `Message` below the outermost object yields no key. -/
theorem scanKeys_message (m : Message) (d : Nat) (last : Option (List Char))
    (rest : List Char) :
    scanKeys (d + 1) last ((Message.toJson m).render ++ rest) = scanKeys (d + 1) none rest := by
  have h1 : ¬ (d + 1 + 1 = 1) := by omega
  simp only [Message.toJson, Json.render, Json.renderMembers, commaSep, List.append_assoc,
    List.singleton_append, List.cons_append, List.nil_append]
  simp only [scanKeys_open_brace, scanKeys_renderString, if_neg h1, scanKeys_colon_none,
    scanKeys_comma, scanKeys_close_brace]

theorem renderItems_messages (ms : List Message) :
    Json.renderItems (ms.map Message.toJson) = ms.map (fun m => (Message.toJson m).render) := by
  induction ms with
  | nil => rfl
  | cons m ms ih => simp [Json.renderItems, ih]

/-- The rendered items of the `messages` array, up to the closing bracket,
yield no key. -/
theorem scanKeys_messages (ms : List Message) :
    ∀ (last : Option (List Char)) (rest : List Char),
      scanKeys 2 last (commaSep (ms.map (fun m => (Message.toJson m).render)) ++ ']' :: rest) =
        scanKeys 1 none rest := by
  induction ms with
  | nil =>
    intro last rest
    exact scanKeys_close_bracket 1 last rest
  | cons m ms ih =>
    intro last rest
    cases ms with
    | nil =>
      simp only [List.map_cons, List.map_nil, commaSep]
      rw [scanKeys_message m 1]
      exact scanKeys_close_bracket 1 none rest
    | cons m2 ms2 =>
      have h := ih none rest
      simp only [List.map_cons, commaSep, List.append_assoc, List.singleton_append,
        List.cons_append, List.nil_append] at h ⊢
      rw [scanKeys_message m 1, scanKeys_comma]
      exact h

/-- The keys read from the text `json.Marshal` returns for a `ChatRequest` are
`model`, `messages` and, exactly when `Stream` is true, `stream`. -/
theorem jsonObjectKeys_marshal (r : ChatRequest) :
    jsonObjectKeys (String.mk (ChatRequest.toJson r).render) =
      ["model", "messages"] ++ (if r.Stream then ["stream"] else []) := by
  obtain ⟨model, msgs, stream⟩ := r
  have hkey1 : String.mk ("model".data.flatMap escapeChar) = "model" := by decide
  have hkey2 : String.mk ("messages".data.flatMap escapeChar) = "messages" := by decide
  have hkey3 : String.mk ("stream".data.flatMap escapeChar) = "stream" := by decide
  have hnil : ∀ d last, scanKeys d last [] = [] := by
    intro d last
    simp [scanKeys]
  cases stream <;> cases msgs <;>
    simp only [jsonObjectKeys, ChatRequest.toJson, Json.render, Json.renderMembers, commaSep,
      List.append_assoc, List.singleton_append, List.cons_append,
      List.nil_append, List.append_nil, if_true, if_false, Bool.false_eq_true] <;>
    simp only [renderItems_messages, scanKeys_open_brace, scanKeys_open_bracket,
      scanKeys_renderString, scanKeys_colon_some, scanKeys_colon_none, scanKeys_comma,
      scanKeys_close_brace, scanKeys_null, scanKeys_true, scanKeys_messages, hnil, hkey1,
      hkey2, hkey3, if_true, Nat.zero_add, Nat.reduceAdd]

/-! ## The claims -/

/-- C1: the payload `testChatCompletion` serializes and sends is the JSON object
with `model` equal to `gpt-4o-mini`, `messages` an array of exactly one entry
with `role` equal to `user` and the fixed content, and no `stream` key; and for
every `ChatRequest` value, whatever its strings and messages, `json.Marshal`
returns a text, and the keys read back from that text are `model`, `messages`
and, exactly when the `Stream` field is true, `stream`. -/
theorem chat_payload_serialization :
    ChatRequest.toJson chatPayload =
        .obj [("model", .str "gpt-4o-mini"),
              ("messages", .arr [.obj [("role", .str "user"),
                                       ("content", .str "Model apa yang kamu gunakan?")]])]
    ∧ jsonMarshal chatPayload = .ok
        "\x7b\"model\":\"gpt-4o-mini\",\"messages\":[\x7b\"role\":\"user\",\"content\":\"Model apa yang kamu gunakan?\"\x7d]\x7d"
    ∧ (∀ net : Transport, requestsOf (testChatCompletion net) =
        [{ method := .POST, url := "http://localhost:3000/chat-completion",
           contentType := "application/json",
           body := "\x7b\"model\":\"gpt-4o-mini\",\"messages\":[\x7b\"role\":\"user\",\"content\":\"Model apa yang kamu gunakan?\"\x7d]\x7d" }])
    ∧ "stream" ∉ (ChatRequest.toJson chatPayload).keys
    ∧ (∀ r : ChatRequest, "stream" ∈ (ChatRequest.toJson r).keys ↔ r.Stream = true)
    ∧ jsonObjectKeys
        "\x7b\"model\":\"gpt-4o-mini\",\"messages\":[\x7b\"role\":\"user\",\"content\":\"Model apa yang kamu gunakan?\"\x7d]\x7d"
        = ["model", "messages"]
    ∧ jsonMarshal { chatPayload with Stream := true } = .ok
        "\x7b\"model\":\"gpt-4o-mini\",\"messages\":[\x7b\"role\":\"user\",\"content\":\"Model apa yang kamu gunakan?\"\x7d],\"stream\":true\x7d"
    ∧ (∀ r : ChatRequest, ∃ text, jsonMarshal r = .ok text)
    ∧ (∀ (r : ChatRequest) (text : String), jsonMarshal r = .ok text →
        jsonObjectKeys text = ["model", "messages"] ++ (if r.Stream then ["stream"] else []))
    ∧ (∀ (r : ChatRequest) (text : String), jsonMarshal r = .ok text →
        ("stream" ∈ jsonObjectKeys text ↔ r.Stream = true)) := by
  have hkeys : ∀ (r : ChatRequest) (text : String), jsonMarshal r = .ok text →
      jsonObjectKeys text = ["model", "messages"] ++ (if r.Stream then ["stream"] else []) := by
    intro r text h
    have ht : String.mk (ChatRequest.toJson r).render = text := by
      unfold jsonMarshal at h
      injection h
    rw [← ht]
    exact jsonObjectKeys_marshal r
  refine ⟨rfl, rfl, ?_, by decide, ?_, ?_, rfl, fun r => ⟨_, rfl⟩, hkeys, ?_⟩
  · intro net
    rw [requestsOf_testChatCompletion]
    rfl
  · intro r
    cases hs : r.Stream <;> simp [ChatRequest.toJson, Json.keys, hs]
  · exact hkeys chatPayload _ rfl
  · intro r text h
    rw [hkeys r text h]
    cases hs : r.Stream <;> simp

/-- Witness for C1: a request whose strings hold quotes and the text
`"stream":` yet has `Stream` false, and the same request with `Stream` true. -/
theorem chat_payload_serialization_witness :
    jsonObjectKeys
        "\x7b\"model\":\"a\\\"b\",\"messages\":[\x7b\"role\":\"\\\"stream\\\":\",\"content\":\"x\"\x7d]\x7d"
        = ["model", "messages"]
    ∧ jsonObjectKeys
        "\x7b\"model\":\"a\\\"b\",\"messages\":[\x7b\"role\":\"\\\"stream\\\":\",\"content\":\"x\"\x7d],\"stream\":true\x7d"
        = ["model", "messages", "stream"] :=
  ⟨chat_payload_serialization.2.2.2.2.2.2.2.2.1
      { Model := "a\"b", Messages := some [{ Role := "\"stream\":", Content := "x" }] }
      _ rfl,
   chat_payload_serialization.2.2.2.2.2.2.2.2.1
      { Model := "a\"b", Messages := some [{ Role := "\"stream\":", Content := "x" }],
        Stream := true }
      _ rfl⟩

/-- C5: when the response (status text `s`, body `b`) is received and read to
the end without error, `testHealthCheck` and `testChatCompletion` each print,
after the section header, exactly the line `Status: s` and then the line
`Respons: b` with the body unchanged, and log nothing; for status `200 OK` and
body `OK` on the health check the status line contains `200` and the body line
contains `OK`. -/
theorem nonstreaming_output_verbatim (net : Transport) (s b : String) :
    (net healthRequest = .ok ⟨s, ⟨b, none⟩⟩ →
      stdoutOf (testHealthCheck net) =
        ["\n=== Menguji Health Check ===\n", "Status: " ++ s ++ "\n", "Respons: " ++ b ++ "\n"]
      ∧ logsOf (testHealthCheck net) = [])
    ∧ (net (chatRequest chatJson) = .ok ⟨s, ⟨b, none⟩⟩ →
      stdoutOf (testChatCompletion net) =
        ["\n=== Menguji Chat Completion (Non-Streaming) ===\n",
         "Status: " ++ s ++ "\n", "Respons: " ++ b ++ "\n"]
      ∧ logsOf (testChatCompletion net) = [])
    ∧ (net healthRequest = .ok ⟨"200 OK", ⟨"OK", none⟩⟩ →
      ∃ l1 l2, stdoutOf (testHealthCheck net) = ["\n=== Menguji Health Check ===\n", l1, l2]
        ∧ "200".data <:+: l1.data ∧ "OK".data <:+: l2.data) := by
  refine ⟨?_, ?_, ?_⟩
  · intro h
    rw [(testHealthCheck_cases net).2.2 s b h]
    exact ⟨rfl, rfl⟩
  · intro h
    unfold testChatCompletion
    rw [(testChatCompletionWith_cases jsonMarshal net).2.2.2 chatJson s b jsonMarshal_chat h]
    exact ⟨rfl, rfl⟩
  · intro h
    rw [(testHealthCheck_cases net).2.2 "200 OK" "OK" h]
    refine ⟨"Status: 200 OK\n", "Respons: OK\n", rfl, ?_, ?_⟩
    · exact ⟨"Status: ".data, " OK\n".data, by decide⟩
    · exact ⟨"Respons: ".data, "\n".data, by decide⟩

/-- Witness for C5: a server that answers every request with `200 OK` and
body `OK`. -/
theorem nonstreaming_output_verbatim_witness :
    stdoutOf (testHealthCheck (fun _ => .ok ⟨"200 OK", ⟨"OK", none⟩⟩)) =
        ["\n=== Menguji Health Check ===\n", "Status: 200 OK\n", "Respons: OK\n"]
    ∧ stdoutOf (testChatCompletion (fun _ => .ok ⟨"200 OK", ⟨"OK", none⟩⟩)) =
        ["\n=== Menguji Chat Completion (Non-Streaming) ===\n", "Status: 200 OK\n",
         "Respons: OK\n"] :=
  ⟨((nonstreaming_output_verbatim (fun _ => .ok ⟨"200 OK", ⟨"OK", none⟩⟩) "200 OK" "OK").1
      rfl).1,
   ((nonstreaming_output_verbatim (fun _ => .ok ⟨"200 OK", ⟨"OK", none⟩⟩) "200 OK" "OK").2.1
      rfl).1⟩

/-- C6: the request `testGeminiStream` builds is a POST to the base URL followed
by `/gemini-stream`, with content type `application/json`, whose body is the
JSON object with `model` equal to `gemini-1.5-flash`, a `messages` array of one
entry with `role` equal to `user`, and no `stream` key; it has the same keys and
the same shape as the payload of `testChatCompletion`, from which it differs
only in the model and the message content. -/
theorem gemini_request_shape :
    (∀ net : Transport, requestsOf (testGeminiStream net) =
        [{ method := .POST, url := baseURL ++ "/gemini-stream",
           contentType := "application/json",
           body := "\x7b\"model\":\"gemini-1.5-flash\",\"messages\":[\x7b\"role\":\"user\",\"content\":\"Ceritakan sebuah lelucon singkat tentang pemrograman.\"\x7d]\x7d" }])
    ∧ baseURL ++ "/gemini-stream" = "http://localhost:3000/gemini-stream"
    ∧ ChatRequest.toJson geminiPayload =
        .obj [("model", .str "gemini-1.5-flash"),
              ("messages", .arr [.obj [("role", .str "user"),
                  ("content", .str "Ceritakan sebuah lelucon singkat tentang pemrograman.")]])]
    ∧ "stream" ∉ (ChatRequest.toJson geminiPayload).keys
    ∧ (ChatRequest.toJson geminiPayload).keys = (ChatRequest.toJson chatPayload).keys
    ∧ (ChatRequest.toJson geminiPayload).shape = (ChatRequest.toJson chatPayload).shape
    ∧ geminiPayload =
        { chatPayload with
          Model := "gemini-1.5-flash",
          Messages := chatPayload.Messages.map (fun ms => ms.map (fun m =>
            { m with Content := "Ceritakan sebuah lelucon singkat tentang pemrograman." })) } := by
  refine ⟨?_, by decide, rfl, by decide, rfl, rfl, rfl⟩
  intro net
  rw [requestsOf_testGeminiStream]
  rfl

/-- Counterexample to C3 as stated: for the body `a\r\n` the chunk between the
start and the newline is `a\r`, and the line printed is `a`; for a body whose
single line has 65536 bytes nothing is printed between the streaming header and
the marker, and an error is logged. In both cases the output differs from the
chunks printed unmodified. -/
theorem stream_chunks_counterexample :
    stdoutOf (testGeminiStream (fun _ => .ok ⟨"200 OK", ⟨"a\r\n", none⟩⟩)) =
        ["\n=== Menguji Gemini Stream Endpoint (Raw) ===\n", "Status: 200 OK\n",
         "Respons Streaming (Raw): \n", "a\n", "--- Stream Selesai ---\n"]
    ∧ chunksVerbatimStdout "200 OK" "a\r\n" =
        ["\n=== Menguji Gemini Stream Endpoint (Raw) ===\n", "Status: 200 OK\n",
         "Respons Streaming (Raw): \n", "a\r\n", "--- Stream Selesai ---\n"]
    ∧ stdoutOf (testGeminiStream (fun _ => .ok ⟨"200 OK", ⟨"a\r\n", none⟩⟩)) ≠
        chunksVerbatimStdout "200 OK" "a\r\n"
    ∧ stdoutOf (testGeminiStream (fun _ => .ok ⟨"200 OK", ⟨longLineBody, none⟩⟩)) =
        ["\n=== Menguji Gemini Stream Endpoint (Raw) ===\n", "Status: 200 OK\n",
         "Respons Streaming (Raw): \n", "--- Stream Selesai ---\n"]
    ∧ logsOf (testGeminiStream (fun _ => .ok ⟨"200 OK", ⟨longLineBody, none⟩⟩)) =
        ["\nError: Gagal membaca stream: bufio.Scanner: token too long"]
    ∧ stdoutOf (testGeminiStream (fun _ => .ok ⟨"200 OK", ⟨longLineBody, none⟩⟩)) ≠
        chunksVerbatimStdout "200 OK" longLineBody := by
  have hlong : testGeminiStream (fun _ => .ok ⟨"200 OK", ⟨longLineBody, none⟩⟩) =
      [.stdout "\n=== Menguji Gemini Stream Endpoint (Raw) ===\n",
       .request (geminiRequest geminiJson), .bodyOpen (geminiRequest geminiJson).url,
       .stdout ("Status: " ++ "200 OK" ++ "\n"), .stdout "Respons Streaming (Raw): \n",
       .log ("\nError: Gagal membaca stream: " ++ errTooLong),
       .stdout "--- Stream Selesai ---\n", .bodyClose (geminiRequest geminiJson).url] := by
    unfold testGeminiStream
    rw [(testGeminiStreamWith_cases jsonMarshal _).2.2 geminiJson "200 OK"
      ⟨longLineBody, none⟩ jsonMarshal_gemini rfl]
    simp only [streamEvents, bufioScan_longLineBody, logPrintf]
    rfl
  refine ⟨by decide, by decide, by decide, ?_, ?_, ?_⟩
  · rw [hlong]; rfl
  · rw [hlong]; rfl
  · rw [hlong]
    intro h
    have hd : longLineBody.data = List.replicate 65536 'x' ++ ['\n'] := rfl
    have hne0 : longLineBody.data ≠ [] := by
      rw [hd]
      exact List.append_ne_nil_of_right_ne_nil _ (List.cons_ne_nil _ _)
    have hne : newlineChunks longLineBody ≠ [] := newlineChunksFrom_ne_nil _ [] hne0
    have hlen := chunksVerbatimStdout_length "200 OK" longLineBody hne
    rw [← h] at hlen
    exact absurd hlen (by decide)

/-- C3 (amended): when the body is delivered without error and every
newline-delimited chunk of it is shorter than 65536 bytes, the lines printed
between the streaming header and the completion marker are exactly the chunks
of the body, in order, each once, each with one trailing carriage return (if
any) removed; nothing is logged and the marker follows the last line. When in
addition no chunk ends in a carriage return the chunks are printed unmodified.
For the body `a\nb\nc\n` the output is the lines a, b, c and then the marker. -/
theorem stream_chunks_printed (net : Transport) (s body : String) :
    (net (geminiRequest geminiJson) = .ok ⟨s, ⟨body, none⟩⟩ →
      (∀ t ∈ newlineChunks body, byteLen t < maxScanTokenSize) →
      stdoutOf (testGeminiStream net) =
          ["\n=== Menguji Gemini Stream Endpoint (Raw) ===\n", "Status: " ++ s ++ "\n",
           "Respons Streaming (Raw): \n"]
          ++ (newlineChunks body).map (fun t => String.mk (dropCR t) ++ "\n")
          ++ ["--- Stream Selesai ---\n"]
      ∧ logsOf (testGeminiStream net) = []
      ∧ ((∀ t ∈ newlineChunks body, t.getLast? ≠ some '\r') →
          stdoutOf (testGeminiStream net) = chunksVerbatimStdout s body))
    ∧ (net (geminiRequest geminiJson) = .ok ⟨s, ⟨"a\nb\nc\n", none⟩⟩ →
      stdoutOf (testGeminiStream net) =
        ["\n=== Menguji Gemini Stream Endpoint (Raw) ===\n", "Status: " ++ s ++ "\n",
         "Respons Streaming (Raw): \n", "a\n", "b\n", "c\n", "--- Stream Selesai ---\n"]) := by
  have key : ∀ body' : String, net (geminiRequest geminiJson) = .ok ⟨s, ⟨body', none⟩⟩ →
      (∀ t ∈ newlineChunks body', byteLen t < maxScanTokenSize) →
      stdoutOf (testGeminiStream net) =
          ["\n=== Menguji Gemini Stream Endpoint (Raw) ===\n", "Status: " ++ s ++ "\n",
           "Respons Streaming (Raw): \n"]
          ++ (newlineChunks body').map (fun t => String.mk (dropCR t) ++ "\n")
          ++ ["--- Stream Selesai ---\n"]
      ∧ logsOf (testGeminiStream net) = [] := by
    intro body' hnet hfit
    have hscan : bufioScan ⟨body', none⟩ =
        ((newlineChunks body').map (fun t => String.mk (dropCR t)), none) :=
      scanLoop_eq_chunks none body'.data [] hfit
    unfold testGeminiStream
    rw [(testGeminiStreamWith_cases jsonMarshal net).2.2 geminiJson s ⟨body', none⟩
      jsonMarshal_gemini hnet]
    constructor
    · simp [stdoutOf, stdoutOf_streamEvents, hscan]
    · simp [logsOf, logsOf_streamEvents, hscan]
  refine ⟨?_, ?_⟩
  · intro hnet hfit
    obtain ⟨h1, h2⟩ := key body hnet hfit
    refine ⟨h1, h2, ?_⟩
    intro hcr
    rw [h1, chunksVerbatimStdout]
    congr 2
    apply List.map_congr_left
    intro t ht
    simp [dropCR, hcr t ht]
  · intro hnet
    exact (key "a\nb\nc\n" hnet (by decide)).1

/-- Witness for C3: a server that streams `a\nb\nc\n`. -/
theorem stream_chunks_printed_witness :
    stdoutOf (testGeminiStream (fun _ => .ok ⟨"200 OK", ⟨"a\nb\nc\n", none⟩⟩)) =
        ["\n=== Menguji Gemini Stream Endpoint (Raw) ===\n", "Status: 200 OK\n",
         "Respons Streaming (Raw): \n"]
        ++ ["a\n", "b\n", "c\n"] ++ ["--- Stream Selesai ---\n"]
    ∧ logsOf (testGeminiStream (fun _ => .ok ⟨"200 OK", ⟨"a\nb\nc\n", none⟩⟩)) = [] :=
  ⟨((stream_chunks_printed (fun _ => .ok ⟨"200 OK", ⟨"a\nb\nc\n", none⟩⟩) "200 OK"
      "a\nb\nc\n").1 rfl (by decide)).1,
   ((stream_chunks_printed (fun _ => .ok ⟨"200 OK", ⟨"a\nb\nc\n", none⟩⟩) "200 OK"
      "a\nb\nc\n").1 rfl (by decide)).2.1⟩

/-- Counterexample to C7 as stated: when the stream of `testGeminiStream` fails
while being read, the call logs the error and then still writes the completion
marker to standard output. -/
theorem error_handling_counterexample :
    testGeminiStream (fun _ => .ok ⟨"200 OK", ⟨"", some "unexpected EOF"⟩⟩) =
      [.stdout "\n=== Menguji Gemini Stream Endpoint (Raw) ===\n",
       .request (geminiRequest geminiJson), .bodyOpen (geminiRequest geminiJson).url,
       .stdout "Status: 200 OK\n", .stdout "Respons Streaming (Raw): \n",
       .log "\nError: Gagal membaca stream: unexpected EOF",
       .stdout "--- Stream Selesai ---\n",
       .bodyClose (geminiRequest geminiJson).url]
    ∧ stdoutOf (afterFirstLog
        (testGeminiStream (fun _ => .ok ⟨"200 OK", ⟨"", some "unexpected EOF"⟩⟩))) =
      ["--- Stream Selesai ---\n"]
    ∧ stdoutOf (afterFirstLog
        (testGeminiStream (fun _ => .ok ⟨"200 OK", ⟨"", some "unexpected EOF"⟩⟩))) ≠ [] := by
  refine ⟨by decide, by decide, by decide⟩

/-- C7 (amended): a serialization failure (in the two POST calls), a transport
failure (in all three calls) and a failure to read the whole body (in
`testHealthCheck` and `testChatCompletion`) are handled alike: the call logs
one message and abandons the step, writing nothing further to standard output.
A failure while reading the stream in `testGeminiStream` also logs one message,
after which the call still prints the completion marker and nothing else. -/
theorem error_handling (marshal : ChatRequest → Except String String) (net : Transport) :
    -- testHealthCheck: transport failure, body-read failure
    (∀ e, net healthRequest = .error e →
      logsOf (testHealthCheck net) = ["Error: Gagal membuat permintaan: " ++ e]
      ∧ stdoutOf (afterFirstLog (testHealthCheck net)) = [])
    ∧ (∀ s d e, net healthRequest = .ok ⟨s, ⟨d, some e⟩⟩ →
      logsOf (testHealthCheck net) = ["Error: Gagal membaca respons: " ++ e]
      ∧ stdoutOf (afterFirstLog (testHealthCheck net)) = [])
    -- testChatCompletion: serialization, transport and body-read failure
    ∧ (∀ e, marshal chatPayload = .error e →
      logsOf (testChatCompletionWith marshal net) = ["Error: Gagal encode JSON: " ++ e]
      ∧ stdoutOf (afterFirstLog (testChatCompletionWith marshal net)) = [])
    ∧ (∀ j e, marshal chatPayload = .ok j → net (chatRequest j) = .error e →
      logsOf (testChatCompletionWith marshal net) =
        ["Error: Gagal mengirim permintaan POST: " ++ e]
      ∧ stdoutOf (afterFirstLog (testChatCompletionWith marshal net)) = [])
    ∧ (∀ j s d e, marshal chatPayload = .ok j →
      net (chatRequest j) = .ok ⟨s, ⟨d, some e⟩⟩ →
      logsOf (testChatCompletionWith marshal net) = ["Error: Gagal membaca respons: " ++ e]
      ∧ stdoutOf (afterFirstLog (testChatCompletionWith marshal net)) = [])
    -- testGeminiStream: serialization, transport and stream-read failure
    ∧ (∀ e, marshal geminiPayload = .error e →
      logsOf (testGeminiStreamWith marshal net) = ["Error: Gagal encode JSON: " ++ e]
      ∧ stdoutOf (afterFirstLog (testGeminiStreamWith marshal net)) = [])
    ∧ (∀ j e, marshal geminiPayload = .ok j → net (geminiRequest j) = .error e →
      logsOf (testGeminiStreamWith marshal net) =
        ["Error: Gagal mengirim permintaan POST: " ++ e]
      ∧ stdoutOf (afterFirstLog (testGeminiStreamWith marshal net)) = [])
    ∧ (∀ j s b e, marshal geminiPayload = .ok j → net (geminiRequest j) = .ok ⟨s, b⟩ →
      (bufioScan b).2 = some e →
      logsOf (testGeminiStreamWith marshal net) = ["\nError: Gagal membaca stream: " ++ e]
      ∧ stdoutOf (afterFirstLog (testGeminiStreamWith marshal net)) =
          ["--- Stream Selesai ---\n"]) := by
  obtain ⟨h1, h2, _⟩ := testHealthCheck_cases net
  obtain ⟨c1, c2, c3, _⟩ := testChatCompletionWith_cases marshal net
  obtain ⟨g1, g2, g3⟩ := testGeminiStreamWith_cases marshal net
  refine ⟨?_, ?_, ?_, ?_, ?_, ?_, ?_, ?_⟩
  · intro e h; rw [h1 e h]; exact ⟨rfl, rfl⟩
  · intro s d e h; rw [h2 s d e h]; exact ⟨rfl, rfl⟩
  · intro e h; rw [c1 e h]; exact ⟨rfl, rfl⟩
  · intro j e hm h; rw [c2 j e hm h]; exact ⟨rfl, rfl⟩
  · intro j s d e hm h; rw [c3 j s d e hm h]; exact ⟨rfl, rfl⟩
  · intro e h; rw [g1 e h]; exact ⟨rfl, rfl⟩
  · intro j e hm h; rw [g2 j e hm h]; exact ⟨rfl, rfl⟩
  · intro j s b e hm h herr
    rw [g3 j s b hm h]
    have hs : streamEvents b =
        (bufioScan b).1.map fmtPrintln ++ [.log ("\nError: Gagal membaca stream: " ++ e)] := by
      simp only [streamEvents, herr, logPrintf]
    rw [hs]
    constructor
    · simp [logsOf, logsOf_map_fmtPrintln]
    · have hpre : logsOf ([Event.stdout "\n=== Menguji Gemini Stream Endpoint (Raw) ===\n",
          .request (geminiRequest j), .bodyOpen (geminiRequest j).url,
          .stdout ("Status: " ++ s ++ "\n"), .stdout "Respons Streaming (Raw): \n"]
          ++ (bufioScan b).1.map fmtPrintln) = [] := by
        simp [logsOf, logsOf_map_fmtPrintln]
      have := afterFirstLog_append _ ("\nError: Gagal membaca stream: " ++ e)
        [Event.stdout "--- Stream Selesai ---\n", .bodyClose (geminiRequest j).url] hpre
      simp only [List.append_assoc, List.singleton_append, List.cons_append,
        List.nil_append] at this ⊢
      rw [this]
      rfl

/-- Witness for C7: a server that is unreachable for the health check, and a
stream that fails at once. -/
theorem error_handling_witness :
    (logsOf (testHealthCheck (fun _ => .error "connection refused")) =
        ["Error: Gagal membuat permintaan: connection refused"]
      ∧ stdoutOf (afterFirstLog (testHealthCheck (fun _ => .error "connection refused"))) = [])
    ∧ (logsOf (testGeminiStreamWith jsonMarshal
          (fun _ => .ok ⟨"200 OK", ⟨"", some "unexpected EOF"⟩⟩)) =
        ["\nError: Gagal membaca stream: unexpected EOF"]
      ∧ stdoutOf (afterFirstLog (testGeminiStreamWith jsonMarshal
          (fun _ => .ok ⟨"200 OK", ⟨"", some "unexpected EOF"⟩⟩))) =
        ["--- Stream Selesai ---\n"]) :=
  ⟨(error_handling jsonMarshal (fun _ => .error "connection refused")).1
      "connection refused" rfl,
   (error_handling jsonMarshal (fun _ => .ok ⟨"200 OK", ⟨"", some "unexpected EOF"⟩⟩)).2.2.2.2.2.2.2
      geminiJson "200 OK" ⟨"", some "unexpected EOF"⟩ "unexpected EOF" rfl rfl (by decide)⟩

/-- C8: with open response bodies as explicit state, in each of the three calls
a body is acquired exactly when the request succeeds, and every acquired body
is closed exactly once, as the last step of the call, whether the body was read
to the end or reading failed; when serialization or the request fails no body
is acquired and none is closed. Each call, and `main`, starts and ends with no
body open. -/
theorem bodies_closed_once (marshal : ChatRequest → Except String String)
    (net : Transport) :
    ((∀ e, net healthRequest = .error e →
        opensOf (testHealthCheck net) = [] ∧ closesOf (testHealthCheck net) = [])
      ∧ (∀ resp, net healthRequest = .ok resp →
        opensOf (testHealthCheck net) = [healthRequest.url]
        ∧ closesOf (testHealthCheck net) = [healthRequest.url]
        ∧ (testHealthCheck net).getLast? = some (.bodyClose healthRequest.url))
      ∧ trackBodies [] (testHealthCheck net) = some [])
    ∧ ((∀ e, marshal chatPayload = .error e →
        opensOf (testChatCompletionWith marshal net) = []
        ∧ closesOf (testChatCompletionWith marshal net) = [])
      ∧ (∀ j e, marshal chatPayload = .ok j → net (chatRequest j) = .error e →
        opensOf (testChatCompletionWith marshal net) = []
        ∧ closesOf (testChatCompletionWith marshal net) = [])
      ∧ (∀ j resp, marshal chatPayload = .ok j → net (chatRequest j) = .ok resp →
        opensOf (testChatCompletionWith marshal net) = [(chatRequest j).url]
        ∧ closesOf (testChatCompletionWith marshal net) = [(chatRequest j).url]
        ∧ (testChatCompletionWith marshal net).getLast? =
            some (.bodyClose (chatRequest j).url))
      ∧ trackBodies [] (testChatCompletionWith marshal net) = some [])
    ∧ ((∀ e, marshal geminiPayload = .error e →
        opensOf (testGeminiStreamWith marshal net) = []
        ∧ closesOf (testGeminiStreamWith marshal net) = [])
      ∧ (∀ j e, marshal geminiPayload = .ok j → net (geminiRequest j) = .error e →
        opensOf (testGeminiStreamWith marshal net) = []
        ∧ closesOf (testGeminiStreamWith marshal net) = [])
      ∧ (∀ j resp, marshal geminiPayload = .ok j → net (geminiRequest j) = .ok resp →
        opensOf (testGeminiStreamWith marshal net) = [(geminiRequest j).url]
        ∧ closesOf (testGeminiStreamWith marshal net) = [(geminiRequest j).url]
        ∧ (testGeminiStreamWith marshal net).getLast? =
            some (.bodyClose (geminiRequest j).url))
      ∧ trackBodies [] (testGeminiStreamWith marshal net) = some [])
    ∧ trackBodies [] (main net) = some [] :=
  ⟨testHealthCheck_bodies net, testChatCompletionWith_bodies marshal net,
   testGeminiStreamWith_bodies marshal net, trackBodies_main net⟩

/-- Witness for C8: the health check succeeds, the chat completion is
unreachable, and the stream fails while being read. -/
theorem bodies_closed_once_witness :
    (opensOf (testHealthCheck (fun r =>
        if r.url = "http://localhost:3000/chat-completion" then .error "connection refused"
        else .ok ⟨"200 OK", ⟨"a\nb", some "unexpected EOF"⟩⟩)) = ["http://localhost:3000/health"]
      ∧ closesOf (testHealthCheck (fun r =>
        if r.url = "http://localhost:3000/chat-completion" then .error "connection refused"
        else .ok ⟨"200 OK", ⟨"a\nb", some "unexpected EOF"⟩⟩)) = ["http://localhost:3000/health"]
      ∧ (testHealthCheck (fun r =>
        if r.url = "http://localhost:3000/chat-completion" then .error "connection refused"
        else .ok ⟨"200 OK", ⟨"a\nb", some "unexpected EOF"⟩⟩)).getLast? =
          some (.bodyClose "http://localhost:3000/health"))
    ∧ (opensOf (testChatCompletionWith jsonMarshal (fun r =>
        if r.url = "http://localhost:3000/chat-completion" then .error "connection refused"
        else .ok ⟨"200 OK", ⟨"a\nb", some "unexpected EOF"⟩⟩)) = []
      ∧ closesOf (testChatCompletionWith jsonMarshal (fun r =>
        if r.url = "http://localhost:3000/chat-completion" then .error "connection refused"
        else .ok ⟨"200 OK", ⟨"a\nb", some "unexpected EOF"⟩⟩)) = [])
    ∧ (opensOf (testGeminiStreamWith jsonMarshal (fun r =>
        if r.url = "http://localhost:3000/chat-completion" then .error "connection refused"
        else .ok ⟨"200 OK", ⟨"a\nb", some "unexpected EOF"⟩⟩)) =
          ["http://localhost:3000/gemini-stream"]
      ∧ closesOf (testGeminiStreamWith jsonMarshal (fun r =>
        if r.url = "http://localhost:3000/chat-completion" then .error "connection refused"
        else .ok ⟨"200 OK", ⟨"a\nb", some "unexpected EOF"⟩⟩)) =
          ["http://localhost:3000/gemini-stream"]
      ∧ (testGeminiStreamWith jsonMarshal (fun r =>
        if r.url = "http://localhost:3000/chat-completion" then .error "connection refused"
        else .ok ⟨"200 OK", ⟨"a\nb", some "unexpected EOF"⟩⟩)).getLast? =
          some (.bodyClose "http://localhost:3000/gemini-stream")) :=
  ⟨(bodies_closed_once jsonMarshal _).1.2.1 ⟨"200 OK", ⟨"a\nb", some "unexpected EOF"⟩⟩ rfl,
   (bodies_closed_once jsonMarshal _).2.1.2.1 chatJson "connection refused" rfl rfl,
   (bodies_closed_once jsonMarshal _).2.2.1.2.2.1 geminiJson
     ⟨"200 OK", ⟨"a\nb", some "unexpected EOF"⟩⟩ rfl rfl⟩

/-- C10: in `testGeminiStream` the completion marker is printed exactly when the
POST request succeeded. When serialization or the transport fails, the call
prints only its section header and logs one error (no status line, no marker);
when the POST succeeds, the status line, the streaming header and, last, the
marker are printed whatever the outcome of reading the body. -/
theorem stream_marker_iff_post_succeeded (marshal : ChatRequest → Except String String)
    (net : Transport) :
    (∀ e, marshal geminiPayload = .error e →
      testGeminiStreamWith marshal net =
        [.stdout "\n=== Menguji Gemini Stream Endpoint (Raw) ===\n",
         .log ("Error: Gagal encode JSON: " ++ e)])
    ∧ (∀ j e, marshal geminiPayload = .ok j → net (geminiRequest j) = .error e →
      testGeminiStreamWith marshal net =
        [.stdout "\n=== Menguji Gemini Stream Endpoint (Raw) ===\n",
         .request (geminiRequest j),
         .log ("Error: Gagal mengirim permintaan POST: " ++ e)])
    ∧ (∀ j s b, marshal geminiPayload = .ok j → net (geminiRequest j) = .ok ⟨s, b⟩ →
      stdoutOf (testGeminiStreamWith marshal net) =
        (["\n=== Menguji Gemini Stream Endpoint (Raw) ===\n", "Status: " ++ s ++ "\n",
          "Respons Streaming (Raw): \n"] ++ (bufioScan b).1.map (fun t => t ++ "\n"))
        ++ ["--- Stream Selesai ---\n"])
    ∧ ("--- Stream Selesai ---\n" ∈ stdoutOf (testGeminiStreamWith marshal net) ↔
        ∃ j resp, marshal geminiPayload = .ok j ∧ net (geminiRequest j) = .ok resp)
    ∧ ("--- Stream Selesai ---\n" ∈ stdoutOf (testGeminiStream net) ↔
        ∃ resp, net (geminiRequest geminiJson) = .ok resp) := by
  have hout : ∀ (m : ChatRequest → Except String String) j s b,
      m geminiPayload = .ok j → net (geminiRequest j) = .ok ⟨s, b⟩ →
      stdoutOf (testGeminiStreamWith m net) =
        (["\n=== Menguji Gemini Stream Endpoint (Raw) ===\n", "Status: " ++ s ++ "\n",
          "Respons Streaming (Raw): \n"] ++ (bufioScan b).1.map (fun t => t ++ "\n"))
        ++ ["--- Stream Selesai ---\n"] := by
    intro m j s b hm h
    rw [(testGeminiStreamWith_cases m net).2.2 j s b hm h]
    simp [stdoutOf, stdoutOf_streamEvents]
  have hiff : ∀ (m : ChatRequest → Except String String),
      ("--- Stream Selesai ---\n" ∈ stdoutOf (testGeminiStreamWith m net) ↔
        ∃ j resp, m geminiPayload = .ok j ∧ net (geminiRequest j) = .ok resp) := by
    intro m
    obtain ⟨g1, g2, _⟩ := testGeminiStreamWith_cases m net
    cases hm : m geminiPayload with
    | error e =>
      rw [g1 e hm]
      constructor
      · intro h
        simp [stdoutOf] at h
      · rintro ⟨j, resp, hj, _⟩; exact absurd hj (by simp)
    | ok j =>
      cases hr : net (geminiRequest j) with
      | error e =>
        rw [g2 j e hm hr]
        constructor
        · intro h
          simp [stdoutOf] at h
        · rintro ⟨j2, resp, hj, hresp⟩
          have hjj : j = j2 := by injection hj
          subst hjj
          rw [hr] at hresp
          exact absurd hresp (by simp)
      | ok resp =>
        obtain ⟨s, b⟩ := resp
        rw [hout m j s b hm hr]
        constructor
        · intro _; exact ⟨j, ⟨s, b⟩, rfl, hr⟩
        · intro _; simp
  refine ⟨(testGeminiStreamWith_cases marshal net).1, (testGeminiStreamWith_cases marshal net).2.1,
    hout marshal, hiff marshal, ?_⟩
  unfold testGeminiStream
  rw [hiff jsonMarshal]
  constructor
  · rintro ⟨j, resp, hj, hresp⟩
    have hjj : geminiJson = j := by
      have := jsonMarshal_gemini ▸ hj
      injection this
    exact ⟨resp, hjj ▸ hresp⟩
  · rintro ⟨resp, hresp⟩
    exact ⟨geminiJson, resp, jsonMarshal_gemini, hresp⟩

/-- Witness for C10: an unreachable server and a server that answers. -/
theorem stream_marker_iff_post_succeeded_witness :
    testGeminiStreamWith jsonMarshal (fun _ => .error "connection refused") =
        [.stdout "\n=== Menguji Gemini Stream Endpoint (Raw) ===\n",
         .request (geminiRequest geminiJson),
         .log "Error: Gagal mengirim permintaan POST: connection refused"]
    ∧ stdoutOf (testGeminiStreamWith (fun _ => .error "unsupported value")
        (fun _ => .ok ⟨"200 OK", ⟨"a\n", none⟩⟩)) =
        ["\n=== Menguji Gemini Stream Endpoint (Raw) ===\n"]
    ∧ stdoutOf (testGeminiStreamWith jsonMarshal
        (fun _ => .ok ⟨"200 OK", ⟨"a\n", some "unexpected EOF"⟩⟩)) =
        ["\n=== Menguji Gemini Stream Endpoint (Raw) ===\n", "Status: 200 OK\n",
         "Respons Streaming (Raw): \n", "a\n", "--- Stream Selesai ---\n"] :=
  ⟨(stream_marker_iff_post_succeeded jsonMarshal (fun _ => .error "connection refused")).2.1
      geminiJson "connection refused" rfl rfl,
   congrArg stdoutOf
     ((stream_marker_iff_post_succeeded (fun _ => .error "unsupported value")
        (fun _ => .ok ⟨"200 OK", ⟨"a\n", none⟩⟩)).1 "unsupported value" rfl),
   (stream_marker_iff_post_succeeded jsonMarshal
      (fun _ => .ok ⟨"200 OK", ⟨"a\n", some "unexpected EOF"⟩⟩)).2.2.1
      geminiJson "200 OK" ⟨"a\n", some "unexpected EOF"⟩ rfl rfl⟩

/-- C2: whatever the transport does with each of the three requests, `main`
issues exactly three requests, in the order GET `/health`, POST
`/chat-completion`, POST `/gemini-stream`, and always ends with the log message
`Pengujian selesai.`; its log is the opening message, the messages of the three
calls in order, and the closing message; a call whose request fails logs
exactly one error, and a call whose request succeeds and whose body is read
without error logs none. -/
theorem main_requests_and_errors (net : Transport) :
    requestsOf (main net) =
        [{ method := .GET, url := "http://localhost:3000/health", contentType := "",
           body := "" },
         { method := .POST, url := "http://localhost:3000/chat-completion",
           contentType := "application/json", body := chatJson },
         { method := .POST, url := "http://localhost:3000/gemini-stream",
           contentType := "application/json", body := geminiJson }]
    ∧ (main net).getLast? = some (.log "\nPengujian selesai.")
    ∧ logsOf (main net) =
        ["Menjalankan pengujian klien Go..."]
        ++ logsOf (testHealthCheck net) ++ logsOf (testChatCompletion net)
        ++ logsOf (testGeminiStream net)
        ++ ["\nPengujian selesai."]
    ∧ (∀ e, net healthRequest = .error e →
        logsOf (testHealthCheck net) = ["Error: Gagal membuat permintaan: " ++ e])
    ∧ (∀ e, net (chatRequest chatJson) = .error e →
        logsOf (testChatCompletion net) = ["Error: Gagal mengirim permintaan POST: " ++ e])
    ∧ (∀ e, net (geminiRequest geminiJson) = .error e →
        logsOf (testGeminiStream net) = ["Error: Gagal mengirim permintaan POST: " ++ e])
    ∧ (∀ s d, net healthRequest = .ok ⟨s, ⟨d, none⟩⟩ → logsOf (testHealthCheck net) = [])
    ∧ (∀ s d, net (chatRequest chatJson) = .ok ⟨s, ⟨d, none⟩⟩ →
        logsOf (testChatCompletion net) = [])
    ∧ (∀ s b, net (geminiRequest geminiJson) = .ok ⟨s, b⟩ → (bufioScan b).2 = none →
        logsOf (testGeminiStream net) = []) := by
  obtain ⟨h1, _, h3⟩ := testHealthCheck_cases net
  obtain ⟨_, c2, _, c4⟩ := testChatCompletionWith_cases jsonMarshal net
  obtain ⟨_, g2, g3⟩ := testGeminiStreamWith_cases jsonMarshal net
  refine ⟨?_, ?_, ?_, ?_, ?_, ?_, ?_, ?_, ?_⟩
  · have e1 : requestsOf [logPrintln "Menjalankan pengujian klien Go..."] = [] := rfl
    have e2 : requestsOf [Event.sleep (1 * second)] = [] := rfl
    have e3 : requestsOf [logPrintln "\nPengujian selesai."] = [] := rfl
    unfold main
    simp only [requestsOf_append, requestsOf_testHealthCheck, requestsOf_testChatCompletion,
      requestsOf_testGeminiStream, e1, e2, e3, List.nil_append, List.append_nil]
    rfl
  · unfold main
    exact List.getLast?_concat _
  · have e1 : logsOf [logPrintln "Menjalankan pengujian klien Go..."] =
        ["Menjalankan pengujian klien Go..."] := rfl
    have e2 : logsOf [Event.sleep (1 * second)] = [] := rfl
    have e3 : logsOf [logPrintln "\nPengujian selesai."] = ["\nPengujian selesai."] := rfl
    unfold main
    simp only [logsOf_append, e1, e2, e3, List.append_nil, List.nil_append, List.append_assoc]
  · intro e h; rw [h1 e h]; rfl
  · intro e h; unfold testChatCompletion; rw [c2 chatJson e jsonMarshal_chat h]; rfl
  · intro e h; unfold testGeminiStream; rw [g2 geminiJson e jsonMarshal_gemini h]; rfl
  · intro s d h; rw [h3 s d h]; rfl
  · intro s d h; unfold testChatCompletion; rw [c4 chatJson s d jsonMarshal_chat h]; rfl
  · intro s b h hb
    unfold testGeminiStream
    rw [g3 geminiJson s b jsonMarshal_gemini h]
    simp [logsOf, logsOf_streamEvents, hb]

/-- Witness for C2: the health check and the stream are answered, the chat
completion is unreachable. -/
theorem main_requests_and_errors_witness :
    logsOf (testHealthCheck (fun r =>
        if r.url = "http://localhost:3000/chat-completion" then .error "connection refused"
        else .ok ⟨"200 OK", ⟨"OK", none⟩⟩)) = []
    ∧ logsOf (testChatCompletion (fun r =>
        if r.url = "http://localhost:3000/chat-completion" then .error "connection refused"
        else .ok ⟨"200 OK", ⟨"OK", none⟩⟩)) =
        ["Error: Gagal mengirim permintaan POST: connection refused"]
    ∧ logsOf (testGeminiStream (fun r =>
        if r.url = "http://localhost:3000/chat-completion" then .error "connection refused"
        else .ok ⟨"200 OK", ⟨"OK", none⟩⟩)) = []
    ∧ requestsOf (main (fun r =>
        if r.url = "http://localhost:3000/chat-completion" then .error "connection refused"
        else .ok ⟨"200 OK", ⟨"OK", none⟩⟩)) =
        [{ method := .GET, url := "http://localhost:3000/health", contentType := "",
           body := "" },
         { method := .POST, url := "http://localhost:3000/chat-completion",
           contentType := "application/json", body := chatJson },
         { method := .POST, url := "http://localhost:3000/gemini-stream",
           contentType := "application/json", body := geminiJson }] :=
  ⟨(main_requests_and_errors _).2.2.2.2.2.2.1 "200 OK" "OK" rfl,
   (main_requests_and_errors _).2.2.2.2.1 "connection refused" rfl,
   (main_requests_and_errors _).2.2.2.2.2.2.2.2 "200 OK" ⟨"OK", none⟩ rfl (by decide),
   (main_requests_and_errors _).1⟩

end ProjectWrapper
